import Mathlib

/-!
Verification development for the asset-auditor evidence-gathering engine.

The Python collectors are shallowly embedded: every external effect
(process execution, file reads, environment lookups) is passed in
explicitly, so each collector becomes a pure function of the outcomes of
the probes it performs.  String manipulation mirrors the Python string
methods used by the source (`strip`, `split`, `splitlines`,
`startswith`, `lower`, substring membership, `split(sep, 1)`), modelled
over `List Char` so that every definition is executable and
kernel-reducible.
-/

namespace Py

/-- Whitespace test used by Python `str.strip()` / `str.split()`
(space, tab, newline, carriage return). -/
def isWs (c : Char) : Bool := c.isWhitespace

/-- Model of Python `str.strip()` on the underlying character list. -/
def stripL (l : List Char) : List Char :=
  ((l.dropWhile isWs).reverse.dropWhile isWs).reverse

/-- Model of Python `str.strip()`. -/
def strip (s : String) : String := ⟨stripL s.data⟩

/-- Helper for `splitlines`: cut a character list at every newline,
returning every piece (including a final empty piece after a trailing
newline). -/
def linesAux : List Char → List Char → List (List Char)
  | acc, [] => [acc.reverse]
  | acc, c :: cs =>
    if c = '\n' then acc.reverse :: linesAux [] cs else linesAux (c :: acc) cs

/-- Model of Python `str.splitlines()`: pieces between newlines; a
trailing newline does not produce a final empty line, and the empty
string has no lines. -/
def splitlines (s : String) : List String :=
  let ps := linesAux [] s.data
  (if ps.getLast? = some [] then ps.dropLast else ps).map (fun l => (⟨l⟩ : String))

/-- Helper for `wsplit`: accumulate the current token (reversed) while
scanning; whitespace ends a token, and empty tokens are never emitted. -/
def wsplitGo : List Char → List Char → List (List Char)
  | cur, [] => if cur.isEmpty then [] else [cur.reverse]
  | cur, c :: cs =>
    if isWs c then
      if cur.isEmpty then wsplitGo [] cs else cur.reverse :: wsplitGo [] cs
    else wsplitGo (c :: cur) cs

/-- Model of Python `str.split()` with no argument: split on runs of
whitespace, never returning empty tokens. -/
def wsplit (s : String) : List String :=
  (wsplitGo [] s.data).map (fun l => (⟨l⟩ : String))

/-- Model of Python `str.lower()` (ASCII case suffices for the probed text). -/
def lowerStr (s : String) : String := ⟨s.data.map Char.toLower⟩

/-- Character-list prefix test. -/
def pfxL : List Char → List Char → Bool
  | [], _ => true
  | _ :: _, [] => false
  | a :: as, b :: bs => a = b && pfxL as bs

/-- Model of Python `str.startswith(p)`. -/
def startswith (s p : String) : Bool := pfxL p.data s.data

/-- Character-list substring test. -/
def subL (n : List Char) : List Char → Bool
  | [] => n.isEmpty
  | h :: t => pfxL n (h :: t) || subL n t

/-- Model of Python `needle in hay` on strings (substring containment). -/
def containsStr (hay needle : String) : Bool := subL needle.data hay.data

/-- Helper for `splitFirst`: scan for the first occurrence of `sep`. -/
def splitFirstL (sep : Char) : List Char → List Char → Option (List Char × List Char)
  | _, [] => none
  | acc, c :: cs =>
    if c = sep then some (acc.reverse, cs) else splitFirstL sep (c :: acc) cs

/-- Model of Python `s.split(sep, 1)` for a one-character separator:
`some (before, after)` when the separator occurs, `none` otherwise
(the source only indexes `[1]` under a guard that the separator occurs). -/
def splitFirst (sep : Char) (s : String) : Option (String × String) :=
  match splitFirstL sep [] s.data with
  | none => none
  | some (a, b) => some (⟨a⟩, ⟨b⟩)

/-- Model of Python `s.split(sep, 1)[1]` (used only where the separator
is guaranteed by a `startswith` / `in` guard; otherwise empty). -/
def afterSep (sep : Char) (s : String) : String :=
  match splitFirst sep s with
  | some (_, r) => r
  | none => ""

/-- Model of Python `s.strip(c)` for a single character: drop every
leading and trailing occurrence of `c`. -/
def stripChar (c : Char) (s : String) : String :=
  ⟨((s.data.dropWhile (· = c)).reverse.dropWhile (· = c)).reverse⟩

/-- Model of Python `a or b` on strings (first operand if truthy, i.e.
non-empty, else the second). -/
def orS (a b : String) : String := if a = "" then b else a

/-- Model of Python truthiness of an `Optional[str]`: `None` and the
empty string are falsy. -/
def truthy : Option String → Bool
  | none => false
  | some s => s != ""

/-- Model of `"\n".join(lines)`. -/
def joinNl : List String → String
  | [] => ""
  | [x] => x
  | x :: y :: xs => x ++ "\n" ++ joinNl (y :: xs)

end Py

/-! ## Core data model -/

/-- Result of one completed external command: return code, stdout, stderr
(the triple produced by `run_cmd` in `helpers/unix.py` when the process
finishes). -/
structure CmdResult where
  rc : Int
  stdout : String
  stderr : String
deriving DecidableEq

/-- A Python exception value, reduced to its type name and message. -/
structure PyExn where
  name : String
  msg : String
deriving DecidableEq

/-- Evidence record built by `get_evidence` in `helpers/unix.py`. -/
structure Evidence where
  cmd : List String
  rc : Int
  stdout : String
  stderr : String
deriving DecidableEq

/-- Embedding of `get_evidence(cmd, rc, stdout, stderr)` from
`helpers/unix.py`. -/
def get_evidence (cmd : List String) (rc : Int) (stdout stderr : String) : Evidence :=
  ⟨cmd, rc, stdout, stderr⟩

/-- Outcome of `subprocess.run(cmd, text=True, capture_output=True,
timeout=timeout_s)`: either the process completed (any exit code), or
`subprocess.TimeoutExpired` was raised at the timeout, or an `OSError`
(such as `FileNotFoundError` for a missing binary) was raised. -/
inductive ProcOutcome where
  | completed (rc : Int) (stdout stderr : String)
  | timeoutExpired (msg : String)
  | oserror (name msg : String)
deriving DecidableEq

/-- Embedding of `run_cmd` from `helpers/unix.py` (the copy in
`collectors/mac.py` is identical).  The body calls `subprocess.run`
with no `try`/`except` whatsoever, so it returns the stripped triple
when the process completes and lets every exception of `subprocess.run`
(timeout, missing binary) propagate to the caller, modelled as
`Except.error`. -/
def runCmd : ProcOutcome → Except PyExn (Int × String × String)
  | .completed rc stdout stderr => .ok (rc, Py.strip stdout, Py.strip stderr)
  | .timeoutExpired m => .error ⟨"TimeoutExpired", m⟩
  | .oserror n m => .error ⟨n, m⟩

/-! The resolver embeddings below take a `runner : List String → CmdResult`
argument: the triple that `run_cmd` returns for each argument vector,
on a run where every invoked process completes. -/

/-! ## Linux default route (`collectors/linux/linux_network.py`) -/

/-- Evidence attached to a default-route fact: a single record for the
source that answered, or the record of all three attempts (keys
`primary`, `fallback_route`, `fallback_netstat`) when nothing did. -/
inductive RouteEvidence where
  | single (e : Evidence)
  | allAttempts (primary fallback_route fallback_netstat : Evidence)
deriving DecidableEq

/-- Normalized fact returned by `get_linux_default_route`. -/
structure RouteFact where
  gateway : Option String
  interface : Option String
  not_checked : Bool
  error : Option String
  remediation : Option String
  evidence : RouteEvidence
deriving DecidableEq

/-- Model of Python `tokens.index(x)`: index of the first occurrence
(only evaluated under an `x in tokens` guard in the source). -/
def pyIndex (x : String) : List String → Nat
  | [] => 0
  | y :: ys => if y = x then 0 else pyIndex x ys + 1

/-- Embedding of the token lookup pattern
`if key in tokens: i = tokens.index(key); if i + 1 < len(tokens): x = tokens[i+1]`
(keeping the previous value when the pattern does not bind). -/
def findAfter (tokens : List String) (key : String) (old : Option String) : Option String :=
  if key ∈ tokens then
    let i := pyIndex key tokens
    if i + 1 < tokens.length then tokens.get? (i + 1) else old
  else old

/-- Embedding of the `ip route show default` parsing loop of
`get_linux_default_route`: per stripped non-empty line, bind the tokens
after `via` and `dev`, stopping at the first line that yields a value. -/
def scanIpRouteLines : List String → Option String × Option String → Option String × Option String
  | [], acc => acc
  | line :: rest, (g, ifc) =>
    let s := Py.strip line
    if s = "" then scanIpRouteLines rest (g, ifc)
    else
      let tokens := Py.wsplit s
      let g' := findAfter tokens "via" g
      let i' := findAfter tokens "dev" ifc
      if Py.truthy g' || Py.truthy i' then (g', i') else scanIpRouteLines rest (g', i')

/-- Embedding of the `route -n` parsing loop of `get_linux_default_route`:
skip headers, match the row whose destination is `0.0.0.0` or `default`
(with at least 8 columns), take column 1 as gateway and the last column
as interface, and stop at the first match. -/
def scanRouteNLines : List String → Option String × Option String → Option String × Option String
  | [], acc => acc
  | line :: rest, (g, ifc) =>
    let s := Py.strip line
    if s = "" || Py.startswith (Py.lowerStr s) "destination" || Py.startswith (Py.lowerStr s) "kernel" then
      scanRouteNLines rest (g, ifc)
    else
      let parts := Py.wsplit s
      if 8 ≤ parts.length ∧ (parts.headD "" = "0.0.0.0" ∨ Py.lowerStr (parts.headD "") = "default") then
        (parts.get? 1, parts.getLast?)
      else scanRouteNLines rest (g, ifc)

/-- Embedding of the `netstat -rn` parsing loop of
`get_linux_default_route`: match the row whose first column is `default`
(case-insensitively, with at least 3 columns), take column 1 as gateway
and the last column as interface, and stop at the first match. -/
def scanNetstatLines : List String → Option String × Option String → Option String × Option String
  | [], acc => acc
  | line :: rest, (g, ifc) =>
    let s := Py.strip line
    if s = "" then scanNetstatLines rest (g, ifc)
    else
      let parts := Py.wsplit s
      if 3 ≤ parts.length ∧ Py.lowerStr (parts.headD "") = "default" then
        (parts.get? 1, parts.getLast?)
      else scanNetstatLines rest (g, ifc)

/-- Embedding of `get_linux_default_route`.  The second component of the
result records, in order, the argument vectors actually passed to
`run_cmd` on this control path (the attempted probes). -/
def get_linux_default_route (runner : List String → CmdResult) :
    RouteFact × List (List String) :=
  let cmd := ["ip", "route", "show", "default"]
  let r := runner cmd
  let evidence := get_evidence cmd r.rc r.stdout r.stderr
  if r.rc = 0 ∧ Py.strip r.stdout ≠ "" then
    let p := scanIpRouteLines (Py.splitlines r.stdout) (none, none)
    ({ gateway := p.1, interface := p.2, not_checked := false,
       error := none, remediation := none, evidence := .single evidence }, [cmd])
  else
    let cmd2 := ["route", "-n"]
    let r2 := runner cmd2
    let evidence2 := get_evidence cmd2 r2.rc r2.stdout r2.stderr
    if r2.rc = 0 ∧ Py.strip r2.stdout ≠ "" then
      let p := scanRouteNLines (Py.splitlines r2.stdout) (none, none)
      ({ gateway := p.1, interface := p.2, not_checked := false,
         error := none, remediation := none, evidence := .single evidence2 }, [cmd, cmd2])
    else
      let cmd3 := ["netstat", "-rn"]
      let r3 := runner cmd3
      let evidence3 := get_evidence cmd3 r3.rc r3.stdout r3.stderr
      if r3.rc = 0 ∧ Py.strip r3.stdout ≠ "" then
        let p := scanNetstatLines (Py.splitlines r3.stdout) (none, none)
        ({ gateway := p.1, interface := p.2, not_checked := false,
           error := none, remediation := none, evidence := .single evidence3 }, [cmd, cmd2, cmd3])
      else
        ({ gateway := none, interface := none, not_checked := true,
           error := some (Py.orS r.stderr (Py.orS r.stdout (Py.orS r2.stderr (Py.orS r2.stdout
             (Py.orS r3.stderr (Py.orS r3.stdout "Could not determine default route")))))),
           remediation := some "Ensure iproute2 is installed (ip command) or provide route/netstat; run with appropriate permissions.",
           evidence := .allAttempts evidence evidence2 evidence3 }, [cmd, cmd2, cmd3])

/-! ## Linux DNS configuration (`collectors/linux/linux_network.py`) -/

/-- Embedding of the restricted append
`if tok not in acc: acc.append(tok)` (no emptiness test), used by the
`nameserver` and `domain` branches of the resolv.conf parser. -/
def appendNew (acc : List String) (t : String) : List String :=
  if t ∉ acc then acc ++ [t] else acc

/-- Embedding of the dedup-append loop
`for tok in toks: if tok and tok not in acc: acc.append(tok)`. -/
def dedupAppend (acc : List String) (toks : List String) : List String :=
  toks.foldl (fun a t => if t ≠ "" ∧ t ∉ a then a ++ [t] else a) acc

/-- Evidence attached to a Linux DNS fact: the resolvectl record alone
(resolvectl answered), with the resolv.conf path (file unreadable), or
with the path and a preview of the file (file answered). -/
inductive DnsEvidence where
  | cmdOnly (resolvectl : Evidence)
  | withPath (resolvectl : Evidence) (resolv_conf_path : String)
  | withPreview (resolvectl : Evidence) (resolv_conf_path : String) (resolv_conf_preview : String)
deriving DecidableEq

/-- Normalized fact returned by `get_linux_dns_config`. -/
structure DnsFact where
  source : Option String
  nameservers : List String
  search_domains : List String
  not_checked : Bool
  error : Option String
  remediation : Option String
  evidence : DnsEvidence
deriving DecidableEq

/-- Embedding of the `resolvectl status` parsing loop of
`get_linux_dns_config`: per stripped line, tokens of lines starting with
`DNS Servers:` feed the nameserver list and tokens of lines starting
with `DNS Domain:`, `Domains:` or `Search Domains:` feed the
search-domain list, deduplicating as they are appended. -/
def scanResolvectl : List String → List String × List String → List String × List String
  | [], acc => acc
  | line :: rest, (ns, sd) =>
    let s := Py.strip line
    let ns' := if Py.startswith s "DNS Servers:" then
        dedupAppend ns (Py.wsplit (Py.strip (Py.afterSep ':' s))) else ns
    let sd1 := if Py.startswith s "DNS Domain:" then
        dedupAppend sd (Py.wsplit (Py.strip (Py.afterSep ':' s))) else sd
    let sd2 := if Py.startswith s "Domains:" || Py.startswith s "Search Domains:" then
        dedupAppend sd1 (Py.wsplit (Py.strip (Py.afterSep ':' s))) else sd1
    scanResolvectl rest (ns', sd2)

/-- Embedding of the `/etc/resolv.conf` parsing loop of
`get_linux_dns_config`: skip blank and `#` lines; `nameserver` lines
contribute their second token, `search` lines every token after the
first, `domain` lines their second token, deduplicating. -/
def scanResolvConf : List String → List String × List String → List String × List String
  | [], acc => acc
  | line :: rest, (ns, sd) =>
    let s := Py.strip line
    if s = "" || Py.startswith s "#" then scanResolvConf rest (ns, sd)
    else
      let parts := Py.wsplit s
      let ns' := if Py.startswith s "nameserver" ∧ 2 ≤ parts.length then
          appendNew ns (parts.getD 1 "") else ns
      let sd1 := if Py.startswith s "search" then dedupAppend sd parts.tail else sd
      let sd2 := if Py.startswith s "domain" ∧ 2 ≤ parts.length then
          appendNew sd1 (parts.getD 1 "") else sd1
      scanResolvConf rest (ns', sd2)

/-- Embedding of `get_linux_dns_config`.  `readResolvConf` is the
outcome of `open("/etc/resolv.conf").read()`: the decoded text, or the
exception the read raised. -/
def get_linux_dns_config (runner : List String → CmdResult)
    (readResolvConf : Except PyExn String) : DnsFact :=
  let cmd := ["resolvectl", "status"]
  let r := runner cmd
  let evidence := get_evidence cmd r.rc r.stdout r.stderr
  if r.rc = 0 ∧ Py.strip r.stdout ≠ "" then
    let p := scanResolvectl (Py.splitlines r.stdout) ([], [])
    { source := some "resolvectl", nameservers := p.1, search_domains := p.2,
      not_checked := false, error := none, remediation := none,
      evidence := .cmdOnly evidence }
  else
    match readResolvConf with
    | .error e =>
      { source := none, nameservers := [], search_domains := [],
        not_checked := true, error := some (e.name ++ ": " ++ e.msg),
        remediation := some "Could not read /etc/resolv.conf; run with appropriate permissions or check file existence.",
        evidence := .withPath evidence "/etc/resolv.conf" }
    | .ok text =>
      let p := scanResolvConf (Py.splitlines text) ([], [])
      { source := some "resolv.conf", nameservers := p.1, search_domains := p.2,
        not_checked := false, error := none, remediation := none,
        evidence := .withPreview evidence "/etc/resolv.conf"
          (Py.joinNl ((Py.splitlines text).take 50)) }

/-! ## Linux proxy configuration (`collectors/linux/linux_network.py`) -/

/-- Evidence attached to the Linux proxy fact. -/
structure ProxyEvidence where
  env_present_http : Bool
  env_present_https : Bool
  env_present_no : Bool
  etc_environment_path : String
  etc_environment_preview : Option String
deriving DecidableEq

/-- Normalized fact returned by `get_linux_proxy_config`. -/
structure ProxyFact where
  http_proxy : Option String
  https_proxy : Option String
  no_proxy : Option String
  sources : List String
  not_checked : Bool
  error : Option String
  remediation : Option String
  evidence : ProxyEvidence
deriving DecidableEq

/-- Embedding of the nested helper `_get_env_any(*keys)`: return the
stripped value of the first key whose environment value is truthy. -/
def getEnvAny (env : String → Option String) : List String → Option String
  | [] => none
  | k :: ks =>
    match env k with
    | some v => if v ≠ "" then some (Py.strip v) else getEnvAny env ks
    | none => getEnvAny env ks

/-- The environment-derived HTTP proxy value (`_get_env_any("HTTP_PROXY", "http_proxy")`). -/
def envHttpProxy (env : String → Option String) : Option String :=
  getEnvAny env ["HTTP_PROXY", "http_proxy"]

/-- The environment-derived HTTPS proxy value (`_get_env_any("HTTPS_PROXY", "https_proxy")`). -/
def envHttpsProxy (env : String → Option String) : Option String :=
  getEnvAny env ["HTTPS_PROXY", "https_proxy"]

/-- The environment-derived no-proxy value (`_get_env_any("NO_PROXY", "no_proxy")`). -/
def envNoProxy (env : String → Option String) : Option String :=
  getEnvAny env ["NO_PROXY", "no_proxy"]

/-- State threaded through the `/etc/environment` parsing loop of
`get_linux_proxy_config`: the three proxy values and the sources list. -/
structure ProxyScanState where
  http_proxy : Option String
  https_proxy : Option String
  no_proxy : Option String
  sources : List String
deriving DecidableEq

/-- Embedding of one iteration of the `/etc/environment` parsing loop:
skip blank, comment and separator-free lines; split at the first `=`;
strip the key, strip whitespace and quotes from the value; fill each
proxy field only when it is still falsy, recording `etc_environment` in
the sources list. -/
def applyEtcLine (st : ProxyScanState) (line : String) : ProxyScanState :=
  let s := Py.strip line
  if s = "" || Py.startswith s "#" || !(Py.containsStr s "=") then st
  else
    match Py.splitFirst '=' s with
    | none => st
    | some (k0, v0) =>
      let k := Py.strip k0
      let v := Py.stripChar '\'' (Py.stripChar '"' (Py.strip v0))
      let st1 :=
        if (k = "HTTP_PROXY" ∨ k = "http_proxy") ∧ ¬ Py.truthy st.http_proxy ∧ v ≠ "" then
          { st with http_proxy := some v, sources := st.sources ++ ["etc_environment"] }
        else st
      let st2 :=
        if (k = "HTTPS_PROXY" ∨ k = "https_proxy") ∧ ¬ Py.truthy st1.https_proxy ∧ v ≠ "" then
          { st1 with
            https_proxy := some v
            sources := if "etc_environment" ∉ st1.sources then st1.sources ++ ["etc_environment"] else st1.sources }
        else st1
      if (k = "NO_PROXY" ∨ k = "no_proxy") ∧ ¬ Py.truthy st2.no_proxy ∧ v ≠ "" then
        { st2 with
          no_proxy := some v
          sources := if "etc_environment" ∉ st2.sources then st2.sources ++ ["etc_environment"] else st2.sources }
      else st2

/-- Embedding of `get_linux_proxy_config`.  `env` is the process
environment (`os.environ.get`); `readEtcEnvironment` is the outcome of
reading `/etc/environment` (the bare `except` maps any exception to an
absent text). -/
def get_linux_proxy_config (env : String → Option String)
    (readEtcEnvironment : Except PyExn String) : ProxyFact :=
  let http0 := envHttpProxy env
  let https0 := envHttpsProxy env
  let no0 := envNoProxy env
  let sources0 : List String :=
    if Py.truthy http0 || Py.truthy https0 || Py.truthy no0 then ["env"] else []
  let etcText : Option String :=
    match readEtcEnvironment with
    | .ok t => some t
    | .error _ => none
  let st :=
    if Py.truthy etcText then
      (Py.splitlines (etcText.getD "")).foldl applyEtcLine
        ⟨http0, https0, no0, sources0⟩
    else ⟨http0, https0, no0, sources0⟩
  { http_proxy := st.http_proxy, https_proxy := st.https_proxy, no_proxy := st.no_proxy,
    sources := st.sources, not_checked := false, error := none, remediation := none,
    evidence :=
      { env_present_http := Py.truthy (env "HTTP_PROXY") || Py.truthy (env "http_proxy"),
        env_present_https := Py.truthy (env "HTTPS_PROXY") || Py.truthy (env "https_proxy"),
        env_present_no := Py.truthy (env "NO_PROXY") || Py.truthy (env "no_proxy"),
        etc_environment_path := "/etc/environment",
        etc_environment_preview :=
          if Py.truthy etcText then some (Py.joinNl ((Py.splitlines (etcText.getD "")).take 50))
          else none } }

/-! ## macOS network collectors (`collectors/mac/mac_network.py`) -/

/-- Evidence dict used by the macOS network collectors and the FileVault
check: the command as a display string plus rc/stdout/stderr. -/
structure MacEvidence where
  cmd : String
  rc : Int
  stdout : String
  stderr : String
deriving DecidableEq

/-- Parsed fields of `route -n get default` output. -/
structure MacRouteParsed where
  gateway : Option String
  interface : Option String
  flags : Option String
deriving DecidableEq

/-- Normalized fact returned by `get_mac_default_route`; `destination`
is present (with value `default`) only in the success shape. -/
structure MacRouteFact where
  destination : Option String
  gateway : Option String
  interface : Option String
  flags : Option String
  not_checked : Bool
  error : Option String
  remediation : Option String
  evidence : MacEvidence
deriving DecidableEq

/-- Embedding of the `route -n get default` parsing loop of
`get_mac_default_route`: per stripped line, a line starting with
`gateway:` / `interface:` / `flags:` sets that field to the stripped
text after the first colon (later lines overwrite earlier ones). -/
def scanMacRoute : List String → MacRouteParsed → MacRouteParsed
  | [], p => p
  | line :: rest, p =>
    let s := Py.strip line
    let val : Option String :=
      match Py.splitFirst ':' s with
      | some (_, r) => some (Py.strip r)
      | none => none
    let p1 := if Py.startswith s "gateway:" then { p with gateway := val } else p
    let p2 := if Py.startswith s "interface:" then { p1 with interface := val } else p1
    let p3 := if Py.startswith s "flags:" then { p2 with flags := val } else p2
    scanMacRoute rest p3

/-- Embedding of `get_mac_default_route`. -/
def get_mac_default_route (runner : List String → CmdResult) : MacRouteFact :=
  let r := runner ["route", "-n", "get", "default"]
  let evidence : MacEvidence := ⟨"route -n get default", r.rc, r.stdout, r.stderr⟩
  if r.rc ≠ 0 then
    { destination := none, gateway := none, interface := none, flags := none,
      not_checked := true,
      error := some (Py.orS r.stderr (Py.orS r.stdout "route command failed")),
      remediation := some "Run with appropriate permissions and ensure the route command is available.",
      evidence := evidence }
  else
    let p := scanMacRoute (Py.splitlines r.stdout) ⟨none, none, none⟩
    { destination := some "default", gateway := p.gateway, interface := p.interface,
      flags := p.flags, not_checked := false, error := none, remediation := none,
      evidence := evidence }

/-- Normalized fact returned by `get_mac_dns_config`. -/
structure MacDnsFact where
  nameservers : List String
  search_domains : List String
  not_checked : Bool
  error : Option String
  remediation : Option String
  evidence : MacEvidence
deriving DecidableEq

/-- Embedding of the `scutil --dns` parsing loop of
`get_mac_dns_config`: lines starting with `nameserver[` feed the
nameserver list and lines starting with `search domain[` feed the
search-domain list (value after the first colon, stripped, appended if
truthy and new; first matching branch wins via `continue`). -/
def scanScutilDns : List String → List String × List String → List String × List String
  | [], acc => acc
  | line :: rest, (ns, sd) =>
    let s := Py.strip line
    if Py.startswith s "nameserver[" ∧ Py.containsStr s ":" then
      let v := Py.strip (Py.afterSep ':' s)
      scanScutilDns rest ((if v ≠ "" ∧ v ∉ ns then ns ++ [v] else ns), sd)
    else if Py.startswith s "search domain[" ∧ Py.containsStr s ":" then
      let v := Py.strip (Py.afterSep ':' s)
      scanScutilDns rest (ns, (if v ≠ "" ∧ v ∉ sd then sd ++ [v] else sd))
    else scanScutilDns rest (ns, sd)

/-- Embedding of `get_mac_dns_config`. -/
def get_mac_dns_config (runner : List String → CmdResult) : MacDnsFact :=
  let r := runner ["scutil", "--dns"]
  let evidence : MacEvidence := ⟨"scutil --dns", r.rc, r.stdout, r.stderr⟩
  if r.rc ≠ 0 then
    { nameservers := [], search_domains := [], not_checked := true,
      error := some (Py.orS r.stderr (Py.orS r.stdout "scutil --dns failed")),
      remediation := some "Ensure scutil is available and run with appropriate permissions.",
      evidence := evidence }
  else
    let p := scanScutilDns (Py.splitlines r.stdout) ([], [])
    { nameservers := p.1, search_domains := p.2, not_checked := false,
      error := none, remediation := none, evidence := evidence }

/-- One proxy endpoint (http/https/socks) in the macOS proxy fact. -/
structure ProxyEndpoint where
  enabled : Option Bool
  host : Option String
  port : Option Int
deriving DecidableEq

/-- PAC configuration in the macOS proxy fact. -/
structure PacConfig where
  enabled : Option Bool
  url : Option String
deriving DecidableEq

/-- Normalized fact returned by `get_mac_proxy_config`. -/
structure MacProxyFact where
  http : ProxyEndpoint
  https : ProxyEndpoint
  socks : ProxyEndpoint
  pac : PacConfig
  exceptions : List String
  not_checked : Bool
  error : Option String
  remediation : Option String
  evidence : MacEvidence
deriving DecidableEq

/-- Embedding of the `Key : Value` collection loop of
`get_mac_proxy_config` (a dict write per line with a truthy key; lookups
see the last assignment). -/
def buildScutilKv : List String → List (String × String) → List (String × String)
  | [], m => m
  | line :: rest, m =>
    let s := Py.strip line
    if !(Py.containsStr s ":") then buildScutilKv rest m
    else
      match Py.splitFirst ':' s with
      | none => buildScutilKv rest m
      | some (k0, v0) =>
        let k := Py.strip k0
        let v := Py.strip v0
        buildScutilKv rest (if k ≠ "" then m ++ [(k, v)] else m)

/-- Dict lookup (`kv.get(key)`): the most recent assignment wins. -/
def kvGet (m : List (String × String)) (k : String) : Option String :=
  List.lookup k m.reverse

/-- Embedding of the nested helper `_bool_from_01`. -/
def boolFrom01 : Option String → Option Bool
  | none => none
  | some v => if v = "1" then some true else if v = "0" then some false else none

/-- Embedding of the nested helper `_int_or_none` (`int(v)` modelled as
decimal integer parsing; a failed parse is `None`). -/
def intOrNone : Option String → Option Int
  | none => none
  | some v => v.toInt?

/-- Embedding of the ExceptionsList scanning loop of
`get_mac_proxy_config`, threading the `in_exceptions_block` flag. -/
def scanExceptions : List String → Bool → List String → List String
  | [], _, ex => ex
  | line :: rest, inBlock, ex =>
    let s := Py.strip line
    if Py.startswith s "ExceptionsList" then
      let ex' :=
        if Py.containsStr s ":" then
          let tail := Py.strip (Py.afterSep ':' s)
          if tail ≠ "" ∧ ¬ Py.startswith tail "<array>" then ex ++ [tail] else ex
        else ex
      scanExceptions rest true ex'
    else if inBlock then
      if Py.startswith s "\x7d" then scanExceptions rest false ex
      else if Py.containsStr s ":" then
        let tail := Py.strip (Py.afterSep ':' s)
        scanExceptions rest true (if tail ≠ "" ∧ tail ∉ ex then ex ++ [tail] else ex)
      else scanExceptions rest true ex
    else scanExceptions rest inBlock ex

/-- Embedding of `get_mac_proxy_config`. -/
def get_mac_proxy_config (runner : List String → CmdResult) : MacProxyFact :=
  let r := runner ["scutil", "--proxy"]
  let evidence : MacEvidence := ⟨"scutil --proxy", r.rc, r.stdout, r.stderr⟩
  if r.rc ≠ 0 then
    { http := ⟨none, none, none⟩, https := ⟨none, none, none⟩, socks := ⟨none, none, none⟩,
      pac := ⟨none, none⟩, exceptions := [], not_checked := true,
      error := some (Py.orS r.stderr (Py.orS r.stdout "scutil --proxy failed")),
      remediation := some "Ensure scutil is available and run with appropriate permissions.",
      evidence := evidence }
  else
    let lines := Py.splitlines r.stdout
    let kv := buildScutilKv lines []
    { http := ⟨boolFrom01 (kvGet kv "HTTPEnable"), kvGet kv "HTTPProxy",
        intOrNone (kvGet kv "HTTPPort")⟩,
      https := ⟨boolFrom01 (kvGet kv "HTTPSEnable"), kvGet kv "HTTPSProxy",
        intOrNone (kvGet kv "HTTPSPort")⟩,
      socks := ⟨boolFrom01 (kvGet kv "SOCKSEnable"), kvGet kv "SOCKSProxy",
        intOrNone (kvGet kv "SOCKSPort")⟩,
      pac := ⟨boolFrom01 (kvGet kv "ProxyAutoConfigEnable"), kvGet kv "ProxyAutoConfigURLString"⟩,
      exceptions := scanExceptions lines false [], not_checked := false,
      error := none, remediation := none, evidence := evidence }

/-! ## Listening ports (`shared/network.py`) -/

/-- Address family of a connection as psutil reports it: the stable
IPv4/IPv6 constants, or a platform value with an optional enum name and
a string representation. -/
inductive Fam where
  | inet
  | inet6
  | other (name : Option String) (reprStr : String)
deriving DecidableEq

/-- Embedding of `_family_to_label`. -/
def familyToLabel : Fam → String
  | .inet => "IPv4"
  | .inet6 => "IPv6"
  | .other name reprStr =>
    match name with
    | some n => if Py.containsStr n "LINK" || Py.containsStr n "PACKET" then "MAC" else reprStr
    | none => reprStr

/-- Socket type of a connection (`socket.SOCK_STREAM` / `socket.SOCK_DGRAM`
or anything else). -/
inductive SockType where
  | stream
  | dgram
  | otherType
deriving DecidableEq

/-- One psutil connection record, reduced to the fields the loop reads.
`laddr` is the local address: `none` when falsy, otherwise the ip and
port components that attribute/tuple access yields. -/
structure Conn where
  laddr : Option (Option String × Option Int)
  family : Fam
  pid : Option Int
  typ : SockType
  status : String
deriving DecidableEq

/-- Embedding of `_laddr_ip_port`: a falsy laddr gives `(None, None)`;
otherwise attribute access (or the tuple-indexing fallback, which reads
the same two components) yields the ip and port. -/
def laddrIpPort : Option (Option String × Option Int) → Option String × Option Int
  | none => (none, none)
  | some (ip, port) => (ip, port)

/-- One entry of the tcp/udp listener inventories. -/
structure PortEntry where
  ip : Option String
  port : Int
  family : String
  pid : Option Int
  process_name : Option String
deriving DecidableEq

/-- Exception raised by `psutil.net_connections`, matching the two
`except` clauses of `get_listening_ports`. -/
inductive ConnExn where
  | accessDenied (name msg : String)
  | osError (name msg : String)
deriving DecidableEq

/-- Normalized fact returned by `get_listening_ports` (this resolver
attaches no evidence key). -/
structure PortsFact where
  tcp : List PortEntry
  udp : List PortEntry
  not_checked : Bool
  error : Option String
  remediation : Option String
deriving DecidableEq

/-- Embedding of the categorisation loop of `get_listening_ports`:
skip connections without a port; a stream socket in `LISTEN` state is a
TCP listener, a datagram socket is a bound UDP socket.  `procName`
models `psutil.Process(pid).name()` (`none` when it raised). -/
def portsScan (procName : Int → Option String) :
    List Conn → List PortEntry × List PortEntry → List PortEntry × List PortEntry
  | [], acc => acc
  | c :: cs, (tcp, udp) =>
    match laddrIpPort c.laddr with
    | (_, none) => portsScan procName cs (tcp, udp)
    | (ip, some port) =>
      let fam := familyToLabel c.family
      let pname : Option String :=
        match c.pid with
        | none => none
        | some p => procName p
      let entry : PortEntry := ⟨ip, port, fam, c.pid, pname⟩
      if c.typ = SockType.stream ∧ c.status = "LISTEN" then
        portsScan procName cs (tcp ++ [entry], udp)
      else if c.typ = SockType.dgram then
        portsScan procName cs (tcp, udp ++ [entry])
      else portsScan procName cs (tcp, udp)

/-- Embedding of `get_listening_ports`.  `conns` is the outcome of
`psutil.net_connections(kind="inet")`. -/
def get_listening_ports (conns : Except ConnExn (List Conn))
    (procName : Int → Option String) : PortsFact :=
  match conns with
  | .error (.accessDenied n m) =>
    { tcp := [], udp := [], not_checked := true,
      error := some (n ++ ": " ++ m),
      remediation := some "Run the audit with elevated privileges (sudo/root) to enumerate system-wide listening sockets." }
  | .error (.osError n m) =>
    { tcp := [], udp := [], not_checked := true,
      error := some (n ++ ": " ++ m),
      remediation := some "Could not enumerate sockets due to an OS error. Try running as sudo/root and re-test." }
  | .ok cs =>
    let p := portsScan procName cs ([], [])
    { tcp := p.1, udp := p.2, not_checked := false, error := none, remediation := none }

/-! ## macOS checks (`collectors/mac.py`) -/

/-- One observation attached to an AuditResult. -/
structure Finding where
  severity : String
  title : String
  detail : String
  remediation : String
deriving DecidableEq

/-- Scored verdict of one check; `ε` is the shape of the free-form
evidence object. -/
structure AuditResult (ε : Type) where
  id : String
  name : String
  weight : Int
  status : String
  score_factor : ℚ
  evidence : ε
  findings : List Finding
deriving DecidableEq

/-- Path of the socketfilterfw binary (`SFW` in `collectors/mac.py`). -/
def SFW : String := "/usr/libexec/ApplicationFirewall/socketfilterfw"

/-- Embedding of `_parse_state`: numeric firewall state from the
`--getglobalstate` text, checking `State = 1`, then `State = 0`, then
`State = 2`. -/
def parse_state (output : String) : Option Int :=
  if Py.containsStr output "State = 1" then some 1
  else if Py.containsStr output "State = 0" then some 0
  else if Py.containsStr output "State = 2" then some 2
  else none

/-- Embedding of `_parse_on_off`: `enabled` / `disabled` text matching,
case-insensitive. -/
def parse_on_off (output : String) : Option Bool :=
  let low := Py.lowerStr output
  if Py.containsStr low "enabled" then some true
  else if Py.containsStr low "disabled" then some false
  else none

/-- Approximation of Python `repr` for a string (used only inside
human-readable `detail` text). -/
def pyRepr (s : String) : String := "'" ++ s ++ "'"

/-- Parsed values stored in the firewall check evidence. -/
structure FwParsed where
  global_state : Option Int
  stealth_mode : Option Bool
  block_all : Option Bool
deriving DecidableEq

/-- Evidence dict of the firewall check.  `parsed`, `getstealthmode` and
`getblockall` are absent (`none`) on the early NOT_CHECKED return. -/
structure FwEvidence where
  tool : String
  notes : String
  getglobalstate : CmdResult
  parsed : Option FwParsed
  getstealthmode : Option CmdResult
  getblockall : Option CmdResult
deriving DecidableEq

/-- Embedding of `check_mac_firewall_status`. -/
def check_mac_firewall_status (runner : List String → CmdResult) : AuditResult FwEvidence :=
  let r1 := runner [SFW, "--getglobalstate"]
  if r1.rc ≠ 0 then
    let ev0 : FwEvidence :=
      { tool := SFW,
        notes := "Uses macOS Application Firewall (ALF) via socketfilterfw",
        getglobalstate := r1, parsed := none, getstealthmode := none, getblockall := none }
    { id := "firewall", name := "Firewall status (macOS Application Firewall)",
      weight := 10, status := "NOT_CHECKED", score_factor := 0.6,
      evidence := ev0,
      findings := [⟨"MEDIUM", "Could not query firewall state",
        Py.strip ("socketfilterfw failed (rc=" ++ toString r1.rc ++ "). " ++
          Py.orS r1.stderr (Py.orS r1.stdout "")),
        "Run as sudo/root and confirm the binary exists at /usr/libexec/ApplicationFirewall/socketfilterfw."⟩] }
  else
    let state := parse_state r1.stdout
    let r2 := runner [SFW, "--getstealthmode"]
    let r3 := runner [SFW, "--getblockall"]
    let stealth := if r2.rc = 0 then parse_on_off r2.stdout else none
    let block_all := if r3.rc = 0 then parse_on_off r3.stdout else none
    let ev : FwEvidence :=
      { tool := SFW,
        notes := "Uses macOS Application Firewall (ALF) via socketfilterfw",
        getglobalstate := r1, parsed := some ⟨state, stealth, block_all⟩,
        getstealthmode := some r2, getblockall := some r3 }
    if state = some 0 then
      { id := "firewall", name := "Firewall status (macOS Application Firewall)",
        weight := 10, status := "FAIL", score_factor := 0.0, evidence := ev,
        findings := [⟨"HIGH", "Firewall is disabled",
          "macOS Application Firewall reports State = 0 (off).",
          "Enable Firewall in System Settings → Network → Firewall."⟩] }
    else if state = some 1 then
      if stealth = some false then
        { id := "firewall", name := "Firewall status (macOS Application Firewall)",
          weight := 10, status := "WARN", score_factor := 0.5, evidence := ev,
          findings := [⟨"LOW", "Stealth mode is disabled",
            "Firewall is enabled, but stealth mode appears disabled.",
            "Consider enabling Stealth Mode if appropriate for the environment."⟩] }
      else
        { id := "firewall", name := "Firewall status (macOS Application Firewall)",
          weight := 10, status := "PASS", score_factor := 1.0, evidence := ev,
          findings := [] }
    else
      { id := "firewall", name := "Firewall status (macOS Application Firewall)",
        weight := 10, status := "WARN", score_factor := 0.5, evidence := ev,
        findings := [⟨"LOW", "Firewall state could not be interpreted",
          "Unexpected output: " ++ pyRepr r1.stdout,
          "Verify firewall settings manually and expand parsing rules if needed."⟩] }

/-- Embedding of `check_mac_filevault_status`. -/
def check_mac_filevault_status (runner : List String → CmdResult) : AuditResult MacEvidence :=
  let r := runner ["fdesetup", "status"]
  let evidence : MacEvidence := ⟨"fdesetup status", r.rc, r.stdout, r.stderr⟩
  if r.rc ≠ 0 then
    { id := "filevault", name := "FileVault disk encryption status",
      weight := 20, status := "NOT_CHECKED", score_factor := 0.6, evidence := evidence,
      findings := [⟨"MEDIUM", "Could not query FileVault status",
        Py.strip ("fdesetup failed (rc=" ++ toString r.rc ++ "). " ++
          Py.orS r.stderr (Py.orS r.stdout "")),
        "Confirm the fdesetup command is available."⟩] }
  else
    let low := Py.lowerStr r.stdout
    if Py.containsStr low "filevault is on" then
      { id := "filevault", name := "FileVault disk encryption status",
        weight := 20, status := "PASS", score_factor := 1.0, evidence := evidence,
        findings := [] }
    else if Py.containsStr low "filevault is off" then
      { id := "filevault", name := "FileVault disk encryption status",
        weight := 20, status := "FAIL", score_factor := 0.0, evidence := evidence,
        findings := [⟨"CRITICAL", "FileVault is disabled",
          "FileVault disk encryption is reported as off.",
          "Enable FileVault in System Settings → Privacy & Security → FileVault."⟩] }
    else
      { id := "filevault", name := "FileVault disk encryption status",
        weight := 20, status := "WARN", score_factor := 0.5, evidence := evidence,
        findings := [⟨"LOW", "FileVault status could not be interpreted",
          "Unexpected output: " ++ pyRepr r.stdout,
          "Verify FileVault settings manually and expand parsing rules if needed."⟩] }

/-! ## Specification-side definitions

`firstSeenGo`/`firstSeenOrder` formalise the spec's words "deduplicated
and preserve first-seen order" independently of the parsing loops; the
`…Stream` functions name the token stream each DNS source matches, in
source-text order.  The C8 theorems state that the parsers' outputs
refine these definitions. -/

/-- Keep each not-yet-seen non-empty token at the position of its first
occurrence, given an initial set of already-seen tokens. -/
def firstSeenGo (seen : List String) : List String → List String
  | [] => []
  | t :: ts =>
    if t = "" ∨ t ∈ seen then firstSeenGo seen ts
    else t :: firstSeenGo (t :: seen) ts

/-- First-seen-order deduplication of a token stream (the spec's
"deduplicated, order-preserving" list). -/
def firstSeenOrder (l : List String) : List String := firstSeenGo [] l

/-- Tokens the `resolvectl status` parser matches into the nameserver
list: the whitespace tokens after the colon of each `DNS Servers:` line,
in text order. -/
def resolvectlNsStream (lines : List String) : List String :=
  (lines.map (fun line =>
    let s := Py.strip line
    if Py.startswith s "DNS Servers:" then Py.wsplit (Py.strip (Py.afterSep ':' s)) else [])).flatten

/-- Tokens the `resolvectl status` parser matches into the search-domain
list: tokens of `DNS Domain:` lines followed by tokens of `Domains:` /
`Search Domains:` lines, per line in text order. -/
def resolvectlSdStream (lines : List String) : List String :=
  (lines.map (fun line =>
    let s := Py.strip line
    (if Py.startswith s "DNS Domain:" then Py.wsplit (Py.strip (Py.afterSep ':' s)) else []) ++
    (if Py.startswith s "Domains:" || Py.startswith s "Search Domains:" then
      Py.wsplit (Py.strip (Py.afterSep ':' s)) else []))).flatten

/-- Tokens the `/etc/resolv.conf` parser matches into the nameserver
list: the second token of each uncommented `nameserver` line. -/
def resolvConfNsStream (lines : List String) : List String :=
  (lines.map (fun line =>
    let s := Py.strip line
    if s = "" || Py.startswith s "#" then []
    else
      let parts := Py.wsplit s
      if Py.startswith s "nameserver" ∧ 2 ≤ parts.length then [parts.getD 1 ""] else [])).flatten

/-- Tokens the `/etc/resolv.conf` parser matches into the search-domain
list: all tokens after the first of each `search` line, then the second
token of each `domain` line. -/
def resolvConfSdStream (lines : List String) : List String :=
  (lines.map (fun line =>
    let s := Py.strip line
    if s = "" || Py.startswith s "#" then []
    else
      let parts := Py.wsplit s
      (if Py.startswith s "search" then parts.tail else []) ++
      (if Py.startswith s "domain" ∧ 2 ≤ parts.length then [parts.getD 1 ""] else []))).flatten

/-- Values the `scutil --dns` parser matches into the nameserver list:
the stripped text after the colon of each `nameserver[` line. -/
def scutilNsStream (lines : List String) : List String :=
  (lines.map (fun line =>
    let s := Py.strip line
    if Py.startswith s "nameserver[" ∧ Py.containsStr s ":" then [Py.strip (Py.afterSep ':' s)]
    else [])).flatten

/-- Values the `scutil --dns` parser matches into the search-domain
list: the stripped text after the colon of each `search domain[` line
(a line already matched as a nameserver line does not contribute). -/
def scutilSdStream (lines : List String) : List String :=
  (lines.map (fun line =>
    let s := Py.strip line
    if Py.startswith s "nameserver[" ∧ Py.containsStr s ":" then []
    else if Py.startswith s "search domain[" ∧ Py.containsStr s ":" then [Py.strip (Py.afterSep ':' s)]
    else [])).flatten

/-! ## Concrete probe outcomes used to instantiate the theorems -/

/-- A run on which every probe fails with exit code 1. -/
def allFailRunner : List String → CmdResult := fun _ => ⟨1, "", "boom"⟩

/-- A run on which `ip route show default` succeeds but prints a line
with no `via`/`dev` tokens, and every other probe fails. -/
def ipGarbageRunner : List String → CmdResult := fun c =>
  if c = ["ip", "route", "show", "default"] then ⟨0, "blackhole default", ""⟩
  else ⟨1, "", ""⟩

/-- A run on which `ip route show default` prints a typical route line
with trailing tokens. -/
def ipGoodRunner : List String → CmdResult := fun c =>
  if c = ["ip", "route", "show", "default"] then
    ⟨0, "default via 192.168.1.1 dev eth0 proto dhcp metric 100", ""⟩
  else ⟨1, "", ""⟩

/-- A run on which `resolvectl status` repeats nameserver and domain
tokens across lines. -/
def resolvectlDupRunner : List String → CmdResult := fun c =>
  if c = ["resolvectl", "status"] then
    ⟨0, "DNS Servers: 1.1.1.1 8.8.8.8\nDNS Servers: 1.1.1.1 9.9.9.9\nDNS Domain: corp.example.com\nDomains: corp.example.com lab.example.com", ""⟩
  else ⟨1, "", ""⟩

/-- A run on which `scutil --dns` repeats nameserver and search-domain
values across lines. -/
def scutilDupRunner : List String → CmdResult := fun _ =>
  ⟨0, "resolver 1\nnameserver[0] : 1.1.1.1\nnameserver[1] : 1.1.1.1\nnameserver[2] : 8.8.8.8\nsearch domain[0] : corp.example.com\nsearch domain[1] : corp.example.com", ""⟩

/-- A resolv.conf text with repeated nameservers and domains. -/
def resolvConfDupText : String :=
  "# comment\nnameserver 1.1.1.1\nnameserver 1.1.1.1\nnameserver 8.8.8.8\nsearch a.com b.com a.com\ndomain b.com"

/-- A run on which every check probe fails with exit code 1. -/
def fwFailRunner : List String → CmdResult := fun _ => ⟨1, "", "need root"⟩

/-- A run on which the firewall state text contains both `State = 1` and
`State = 0`, and stealth mode reports enabled. -/
def fwAmbiguousRunner : List String → CmdResult := fun c =>
  if c = [SFW, "--getglobalstate"] then ⟨0, "Firewall is enabled. (State = 1) (State = 0)", ""⟩
  else ⟨0, "Stealth mode enabled", ""⟩

/-- A run on which the firewall reports disabled (`State = 0`). -/
def fwOffRunner : List String → CmdResult := fun c =>
  if c = [SFW, "--getglobalstate"] then ⟨0, "Firewall is disabled. (State = 0)", ""⟩
  else ⟨0, "", ""⟩

/-- An environment with only `HTTP_PROXY` set. -/
def envHttpOnly : String → Option String := fun k =>
  if k = "HTTP_PROXY" then some "http://p:8080" else none

/-- An environment with no proxy variables set. -/
def envEmpty : String → Option String := fun _ => none

/-! ## Helper lemmas -/

/-- A string built around a literal `": "` separator is never empty. -/
theorem sepJoin_ne_empty (a b : String) : a ++ ": " ++ b ≠ "" := by
  intro h
  have hl := congrArg String.length h
  rw [String.length_append, String.length_append] at hl
  have h2 : (": " : String).length = 2 := rfl
  have h3 : ("" : String).length = 0 := rfl
  rw [h2, h3] at hl
  omega

/-- `Py.orS` with a non-empty default is non-empty. -/
theorem orS_ne_empty {b : String} (a : String) (hb : b ≠ "") : Py.orS a b ≠ "" := by
  unfold Py.orS
  split
  · exact hb
  · assumption

/-- Tokens produced by `Py.wsplitGo` are never the empty list. -/
theorem wsplitGo_ne_nil (l : List Char) : ∀ (cur : List Char) (x : List Char),
    x ∈ Py.wsplitGo cur l → x ≠ [] := by
  induction l with
  | nil =>
    intro cur x hx
    unfold Py.wsplitGo at hx
    split at hx
    · simp at hx
    · rename_i hcur
      simp at hx
      subst hx
      simp [List.isEmpty_iff] at hcur
      simpa using hcur
  | cons c cs ih =>
    intro cur x hx
    unfold Py.wsplitGo at hx
    split at hx
    · split at hx
      · exact ih [] x hx
      · rename_i hcur
        rcases List.mem_cons.mp hx with h | h
        · subst h
          simp [List.isEmpty_iff] at hcur
          simpa using hcur
        · exact ih [] x h
    · exact ih (c :: cur) x hx

/-- Tokens produced by `Py.wsplit` are never the empty string. -/
theorem wsplit_ne_empty (s : String) : ∀ t ∈ Py.wsplit s, t ≠ "" := by
  intro t ht
  unfold Py.wsplit at ht
  rcases List.mem_map.mp ht with ⟨x, hx, rfl⟩
  have hne := wsplitGo_ne_nil s.data [] x hx
  intro h
  exact hne (congrArg String.data h)

/-- `List.getD` with an in-range index is a member of the list. -/
theorem getD_mem (l : List String) : ∀ (n : Nat), n < l.length → l.getD n "" ∈ l := by
  induction l with
  | nil => intro n hn; simp at hn
  | cons a t ih =>
    intro n hn
    cases n with
    | zero => simp [List.getD]
    | succ m =>
      simp only [List.getD_cons_succ]
      exact List.mem_cons_of_mem a (ih m (by simpa using hn))

/-- Unfolding equation of `firstSeenGo` on a cons cell. -/
theorem firstSeenGo_cons (seen : List String) (t : String) (ts : List String) :
    firstSeenGo seen (t :: ts) =
      if t = "" ∨ t ∈ seen then firstSeenGo seen ts else t :: firstSeenGo (t :: seen) ts := rfl

/-- `firstSeenGo` only depends on the membership of the seen set. -/
theorem firstSeenGo_congr (l : List String) : ∀ (s1 s2 : List String),
    (∀ x, x ∈ s1 ↔ x ∈ s2) → firstSeenGo s1 l = firstSeenGo s2 l := by
  induction l with
  | nil => intro s1 s2 _; rfl
  | cons t ts ih =>
    intro s1 s2 hmem
    rw [firstSeenGo_cons, firstSeenGo_cons]
    by_cases h : t = "" ∨ t ∈ s1
    · have h2 : t = "" ∨ t ∈ s2 := by
        rcases h with h | h
        · exact Or.inl h
        · exact Or.inr ((hmem t).mp h)
      rw [if_pos h, if_pos h2]
      exact ih s1 s2 hmem
    · have h2 : ¬ (t = "" ∨ t ∈ s2) := by
        intro hc
        rcases hc with hc | hc
        · exact h (Or.inl hc)
        · exact h (Or.inr ((hmem t).mpr hc))
      rw [if_neg h, if_neg h2]
      rw [ih (t :: s1) (t :: s2) (by intro x; simp [hmem x])]

/-- The dedup-append loop is the first-seen filter relative to the
accumulator. -/
theorem dedupAppend_eq_go (l : List String) : ∀ (acc : List String),
    dedupAppend acc l = acc ++ firstSeenGo acc l := by
  induction l with
  | nil => intro acc; simp [dedupAppend, firstSeenGo]
  | cons t ts ih =>
    intro acc
    have hstep : dedupAppend acc (t :: ts) =
        dedupAppend (if t ≠ "" ∧ t ∉ acc then acc ++ [t] else acc) ts := by
      simp [dedupAppend]
    rw [hstep, firstSeenGo_cons]
    by_cases h1 : t = ""
    · rw [if_neg (fun hc => hc.1 h1), if_pos (Or.inl h1), ih acc]
    · by_cases h2 : t ∈ acc
      · rw [if_neg (fun hc => hc.2 h2), if_pos (Or.inr h2), ih acc]
      · have hnot : ¬ (t = "" ∨ t ∈ acc) := by
          intro hc
          rcases hc with hc | hc
          · exact h1 hc
          · exact h2 hc
        rw [if_pos ⟨h1, h2⟩, if_neg hnot, ih (acc ++ [t])]
        rw [firstSeenGo_congr ts (acc ++ [t]) (t :: acc) (by intro x; simp [or_comm])]
        simp

/-- Dedup-append from the empty accumulator computes the first-seen-order
deduplication. -/
theorem dedupAppend_nil_eq (l : List String) : dedupAppend [] l = firstSeenOrder l := by
  simpa using dedupAppend_eq_go l []

/-- Members of `firstSeenGo seen l` are not in `seen`. -/
theorem firstSeenGo_not_seen (l : List String) : ∀ (seen : List String) (x : String),
    x ∈ firstSeenGo seen l → x ∉ seen := by
  induction l with
  | nil => intro seen x hx; simp [firstSeenGo] at hx
  | cons t ts ih =>
    intro seen x hx
    unfold firstSeenGo at hx
    split at hx
    · exact ih seen x hx
    · rename_i hcond
      rcases List.mem_cons.mp hx with h | h
      · subst h
        intro hc
        exact hcond (Or.inr hc)
      · intro hc
        exact ih (t :: seen) x h (List.mem_cons_of_mem t hc)

/-- `firstSeenGo` produces a duplicate-free list. -/
theorem firstSeenGo_nodup (l : List String) : ∀ (seen : List String),
    (firstSeenGo seen l).Nodup := by
  induction l with
  | nil => intro seen; simp [firstSeenGo]
  | cons t ts ih =>
    intro seen
    unfold firstSeenGo
    split
    · exact ih seen
    · refine List.nodup_cons.mpr ⟨?_, ih (t :: seen)⟩
      intro hc
      exact firstSeenGo_not_seen ts (t :: seen) t hc (List.mem_cons_self t seen)

/-- `firstSeenOrder` produces a duplicate-free list. -/
theorem firstSeenOrder_nodup (l : List String) : (firstSeenOrder l).Nodup :=
  firstSeenGo_nodup l []

/-- Dedup-append over a concatenation processes the pieces in turn. -/
theorem dedupAppend_append (acc a b : List String) :
    dedupAppend acc (a ++ b) = dedupAppend (dedupAppend acc a) b := by
  unfold dedupAppend
  exact List.foldl_append _ _ _ _

/-- Dedup-append of a single token. -/
theorem dedupAppend_singleton (acc : List String) (v : String) :
    dedupAppend acc [v] = if v ≠ "" ∧ v ∉ acc then acc ++ [v] else acc := rfl

/-- The unguarded append (`if t not in acc`) agrees with dedup-append on
non-empty tokens. -/
theorem appendNew_eq_dedup (acc : List String) {t : String} (ht : t ≠ "") :
    appendNew acc t = dedupAppend acc [t] := by
  rw [dedupAppend_singleton, appendNew]
  by_cases h : t ∈ acc
  · rw [if_neg (by simpa using h), if_neg (by intro hc; exact hc.2 h)]
  · rw [if_pos (by simpa using h), if_pos ⟨ht, h⟩]

/-- Dedup-append of a conditional contribution. -/
theorem dedupAppend_ite (c : Prop) [Decidable c] (acc T : List String) :
    dedupAppend acc (if c then T else []) = if c then dedupAppend acc T else acc := by
  split
  · rfl
  · rfl

/-- Cons equation of `resolvectlNsStream`. -/
theorem resolvectlNsStream_cons (line : String) (rest : List String) :
    resolvectlNsStream (line :: rest) =
      (if Py.startswith (Py.strip line) "DNS Servers:" then
        Py.wsplit (Py.strip (Py.afterSep ':' (Py.strip line))) else []) ++
      resolvectlNsStream rest := by
  simp [resolvectlNsStream]

/-- Cons equation of `resolvectlSdStream`. -/
theorem resolvectlSdStream_cons (line : String) (rest : List String) :
    resolvectlSdStream (line :: rest) =
      ((if Py.startswith (Py.strip line) "DNS Domain:" then
        Py.wsplit (Py.strip (Py.afterSep ':' (Py.strip line))) else []) ++
      (if Py.startswith (Py.strip line) "Domains:" || Py.startswith (Py.strip line) "Search Domains:" then
        Py.wsplit (Py.strip (Py.afterSep ':' (Py.strip line))) else [])) ++
      resolvectlSdStream rest := by
  simp [resolvectlSdStream]

/-- The resolvectl parsing loop dedup-appends exactly the matched token
streams. -/
theorem scanResolvectl_eq (lines : List String) : ∀ (ns sd : List String),
    scanResolvectl lines (ns, sd) =
      (dedupAppend ns (resolvectlNsStream lines), dedupAppend sd (resolvectlSdStream lines)) := by
  induction lines with
  | nil =>
    intro ns sd
    simp [scanResolvectl, resolvectlNsStream, resolvectlSdStream, dedupAppend]
  | cons line rest ih =>
    intro ns sd
    simp only [scanResolvectl]
    rw [ih]
    rw [resolvectlNsStream_cons, resolvectlSdStream_cons]
    rw [dedupAppend_append, dedupAppend_append, dedupAppend_append]
    rw [dedupAppend_ite, dedupAppend_ite, dedupAppend_ite]

/-- Dedup-append of a conditional single token that is non-empty
whenever the condition holds, versus the unguarded append. -/
theorem dedupAppend_ite_single (c : Prop) [Decidable c] (acc : List String) (t : String)
    (ht : c → t ≠ "") :
    dedupAppend acc (if c then [t] else []) = if c then appendNew acc t else acc := by
  split
  · rename_i h
    exact (appendNew_eq_dedup acc (ht h)).symm
  · rfl

/-- Cons equation of `resolvConfNsStream`. -/
theorem resolvConfNsStream_cons (line : String) (rest : List String) :
    resolvConfNsStream (line :: rest) =
      (if Py.strip line = "" || Py.startswith (Py.strip line) "#" then []
       else if Py.startswith (Py.strip line) "nameserver" ∧ 2 ≤ (Py.wsplit (Py.strip line)).length
         then [(Py.wsplit (Py.strip line)).getD 1 ""] else []) ++
      resolvConfNsStream rest := by
  simp [resolvConfNsStream]

/-- Cons equation of `resolvConfSdStream`. -/
theorem resolvConfSdStream_cons (line : String) (rest : List String) :
    resolvConfSdStream (line :: rest) =
      (if Py.strip line = "" || Py.startswith (Py.strip line) "#" then []
       else
        (if Py.startswith (Py.strip line) "search" then (Py.wsplit (Py.strip line)).tail else []) ++
        (if Py.startswith (Py.strip line) "domain" ∧ 2 ≤ (Py.wsplit (Py.strip line)).length
          then [(Py.wsplit (Py.strip line)).getD 1 ""] else [])) ++
      resolvConfSdStream rest := by
  simp [resolvConfSdStream]

/-- The resolv.conf parsing loop dedup-appends exactly the matched token
streams. -/
theorem scanResolvConf_eq (lines : List String) : ∀ (ns sd : List String),
    scanResolvConf lines (ns, sd) =
      (dedupAppend ns (resolvConfNsStream lines), dedupAppend sd (resolvConfSdStream lines)) := by
  induction lines with
  | nil =>
    intro ns sd
    simp [scanResolvConf, resolvConfNsStream, resolvConfSdStream, dedupAppend]
  | cons line rest ih =>
    intro ns sd
    have hgetD : Py.startswith (Py.strip line) "nameserver" = true ∧
        2 ≤ (Py.wsplit (Py.strip line)).length → (Py.wsplit (Py.strip line)).getD 1 "" ≠ "" :=
      fun hc => wsplit_ne_empty (Py.strip line) _ (getD_mem _ 1 (by omega))
    have hgetD2 : Py.startswith (Py.strip line) "domain" = true ∧
        2 ≤ (Py.wsplit (Py.strip line)).length → (Py.wsplit (Py.strip line)).getD 1 "" ≠ "" :=
      fun hc => wsplit_ne_empty (Py.strip line) _ (getD_mem _ 1 (by omega))
    simp only [scanResolvConf]
    rw [resolvConfNsStream_cons, resolvConfSdStream_cons]
    by_cases hskip : (Py.strip line = "" || Py.startswith (Py.strip line) "#") = true
    · rw [if_pos hskip, if_pos hskip, if_pos hskip, ih]
      simp
    · rw [if_neg hskip, if_neg hskip, if_neg hskip, ih]
      rw [dedupAppend_append, dedupAppend_append, dedupAppend_append]
      rw [dedupAppend_ite_single _ _ _ hgetD, dedupAppend_ite_single _ _ _ hgetD2,
        dedupAppend_ite]

/-- Cons equation of `scutilNsStream`. -/
theorem scutilNsStream_cons (line : String) (rest : List String) :
    scutilNsStream (line :: rest) =
      (if Py.startswith (Py.strip line) "nameserver[" ∧ Py.containsStr (Py.strip line) ":"
        then [Py.strip (Py.afterSep ':' (Py.strip line))] else []) ++
      scutilNsStream rest := by
  simp [scutilNsStream]

/-- Cons equation of `scutilSdStream`. -/
theorem scutilSdStream_cons (line : String) (rest : List String) :
    scutilSdStream (line :: rest) =
      (if Py.startswith (Py.strip line) "nameserver[" ∧ Py.containsStr (Py.strip line) ":" then []
       else if Py.startswith (Py.strip line) "search domain[" ∧ Py.containsStr (Py.strip line) ":"
        then [Py.strip (Py.afterSep ':' (Py.strip line))] else []) ++
      scutilSdStream rest := by
  simp [scutilSdStream]

/-- The scutil DNS parsing loop dedup-appends exactly the matched value
streams. -/
theorem scanScutilDns_eq (lines : List String) : ∀ (ns sd : List String),
    scanScutilDns lines (ns, sd) =
      (dedupAppend ns (scutilNsStream lines), dedupAppend sd (scutilSdStream lines)) := by
  induction lines with
  | nil =>
    intro ns sd
    simp [scanScutilDns, scutilNsStream, scutilSdStream, dedupAppend]
  | cons line rest ih =>
    intro ns sd
    simp only [scanScutilDns]
    rw [scutilNsStream_cons, scutilSdStream_cons]
    by_cases hc1 : Py.startswith (Py.strip line) "nameserver[" = true ∧
        Py.containsStr (Py.strip line) ":" = true
    · rw [if_pos hc1, if_pos hc1, if_pos hc1, ih]
      rw [dedupAppend_append, dedupAppend_append]
      rw [← dedupAppend_singleton]
      simp [dedupAppend]
    · rw [if_neg hc1, if_neg hc1, if_neg hc1]
      by_cases hc2 : Py.startswith (Py.strip line) "search domain[" = true ∧
          Py.containsStr (Py.strip line) ":" = true
      · rw [if_pos hc2, if_pos hc2, ih]
        rw [dedupAppend_append, dedupAppend_append]
        rw [← dedupAppend_singleton]
        simp [dedupAppend]
      · rw [if_neg hc2, if_neg hc2, ih]
        simp [dedupAppend]

/-- `Py.wsplit` of the empty string is the empty token list. -/
theorem wsplit_empty : Py.wsplit "" = [] := rfl

/-- `pyIndex` skips a prefix that does not contain the key. -/
theorem pyIndex_append_not_mem (x : String) : ∀ (pre l : List String), x ∉ pre →
    pyIndex x (pre ++ l) = pre.length + pyIndex x l := by
  intro pre
  induction pre with
  | nil => intro l _; simp
  | cons a pre' ih =>
    intro l hx
    have ha : a ≠ x := fun h => hx (by simp [h])
    have hx' : x ∉ pre' := fun h => hx (List.mem_cons_of_mem a h)
    show pyIndex x (a :: (pre' ++ l)) = _
    rw [show pyIndex x (a :: (pre' ++ l)) =
      if a = x then 0 else pyIndex x (pre' ++ l) + 1 from rfl]
    rw [if_neg ha, ih l hx']
    simp
    omega

/-- `List.get?` past a prefix. -/
theorem get?_append_right' : ∀ (pre l : List String) (k : Nat),
    (pre ++ l).get? (pre.length + k) = l.get? k := by
  intro pre
  induction pre with
  | nil => intro l k; simp
  | cons a pre' ih =>
    intro l k
    show (a :: (pre' ++ l)).get? (pre'.length + 1 + k) = l.get? k
    rw [show pre'.length + 1 + k = (pre'.length + k) + 1 by omega]
    rw [show (a :: (pre' ++ l)).get? ((pre'.length + k) + 1) = (pre' ++ l).get? (pre'.length + k) from rfl]
    exact ih l k

/-- `findAfter` finds the token after the first occurrence of the key. -/
theorem findAfter_spec (key X : String) (pre rest : List String) (old : Option String)
    (hk : key ∉ pre) :
    findAfter (pre ++ key :: X :: rest) key old = some X := by
  have hmem : key ∈ pre ++ key :: X :: rest := by simp
  have hidx : pyIndex key (pre ++ key :: X :: rest) = pre.length := by
    rw [pyIndex_append_not_mem key pre _ hk]
    rw [show pyIndex key (key :: X :: rest) = 0 from by simp [pyIndex]]
    omega
  have hlen : (pre ++ key :: X :: rest).length = pre.length + rest.length + 2 := by
    simp [List.length_append]
    omega
  simp only [findAfter]
  rw [if_pos hmem, hidx]
  rw [if_pos (by omega)]
  rw [show pre.length + 1 = pre.length + 1 from rfl]
  rw [get?_append_right' pre (key :: X :: rest) 1]
  rfl

/-! ## Claim theorems -/

/-- C1: the command runner contract.  `run_cmd` returns the stripped
(exit code, stdout, stderr) triple only when the process completes; it
contains no exception handling at all, so `subprocess.TimeoutExpired`
(and `OSError` for a missing binary) propagates to the caller instead of
being converted into a synthetic non-zero exit code — the claim's
never-raises / synthetic-exit-code behaviour is not implemented. -/
theorem claim_C1_runCmd_propagates_exceptions :
    (∀ (rc : Int) (stdout stderr : String),
      runCmd (.completed rc stdout stderr) = .ok (rc, Py.strip stdout, Py.strip stderr))
    ∧ (∀ m, runCmd (.timeoutExpired m) = .error ⟨"TimeoutExpired", m⟩)
    ∧ (∀ n m, runCmd (.oserror n m) = .error ⟨n, m⟩) :=
  ⟨fun _ _ _ => rfl, fun _ => rfl, fun _ _ => rfl⟩

/-- C5: a firewall-state probe (and the FileVault probe) whose command
exits non-zero yields status NOT_CHECKED, score_factor 0.6 (neither 0
nor 1), and exactly one MEDIUM finding. -/
theorem claim_C5_not_checked_unknown_factor (runner runner2 : List String → CmdResult)
    (h1 : (runner [SFW, "--getglobalstate"]).rc ≠ 0)
    (h2 : (runner2 ["fdesetup", "status"]).rc ≠ 0) :
    ((check_mac_firewall_status runner).status = "NOT_CHECKED"
      ∧ (check_mac_firewall_status runner).score_factor = 0.6
      ∧ (check_mac_firewall_status runner).score_factor ≠ 0
      ∧ (check_mac_firewall_status runner).score_factor ≠ 1
      ∧ (check_mac_firewall_status runner).findings.map Finding.severity = ["MEDIUM"])
    ∧ ((check_mac_filevault_status runner2).status = "NOT_CHECKED"
      ∧ (check_mac_filevault_status runner2).score_factor = 0.6
      ∧ (check_mac_filevault_status runner2).score_factor ≠ 0
      ∧ (check_mac_filevault_status runner2).score_factor ≠ 1
      ∧ (check_mac_filevault_status runner2).findings.map Finding.severity = ["MEDIUM"]) := by
  simp only [check_mac_firewall_status, check_mac_filevault_status]
  rw [if_pos h1, if_pos h2]
  refine ⟨⟨rfl, rfl, by norm_num, by norm_num, rfl⟩, ⟨rfl, rfl, by norm_num, by norm_num, rfl⟩⟩

/-- Witness for C5 at a concrete failing run. -/
theorem claim_C5_witness :
    (check_mac_firewall_status fwFailRunner).status = "NOT_CHECKED"
    ∧ (check_mac_filevault_status fwFailRunner).findings.map Finding.severity = ["MEDIUM"] := by
  have h := claim_C5_not_checked_unknown_factor fwFailRunner fwFailRunner (by decide) (by decide)
  exact ⟨h.1.1, h.2.2.2.2.2⟩

/-- C6 counterexample: output text can contain `State = 0` while also
containing `State = 1`; `_parse_state` checks `State = 1` first, so the
check returns PASS with no findings instead of FAIL. -/
theorem claim_C6_counterexample :
    (fwAmbiguousRunner [SFW, "--getglobalstate"]).rc = 0
    ∧ Py.containsStr (fwAmbiguousRunner [SFW, "--getglobalstate"]).stdout "State = 0" = true
    ∧ (check_mac_firewall_status fwAmbiguousRunner).status = "PASS"
    ∧ (check_mac_firewall_status fwAmbiguousRunner).findings = [] := by
  refine ⟨by decide, by decide, by decide, by decide⟩

/-- C6 (amended): a firewall-state probe that exits 0 with output
containing `State = 0` and not containing `State = 1` yields status
FAIL, score_factor 0.0, and exactly one HIGH finding. -/
theorem claim_C6_state0_fail (runner : List String → CmdResult)
    (h0 : (runner [SFW, "--getglobalstate"]).rc = 0)
    (h1 : Py.containsStr (runner [SFW, "--getglobalstate"]).stdout "State = 1" = false)
    (h2 : Py.containsStr (runner [SFW, "--getglobalstate"]).stdout "State = 0" = true) :
    (check_mac_firewall_status runner).status = "FAIL"
    ∧ (check_mac_firewall_status runner).score_factor = 0.0
    ∧ (check_mac_firewall_status runner).findings.map Finding.severity = ["HIGH"] := by
  simp only [check_mac_firewall_status]
  rw [if_neg (by simp [h0])]
  have hstate : parse_state (runner [SFW, "--getglobalstate"]).stdout = some 0 := by
    simp only [parse_state, h1, h2]
    rfl
  rw [hstate]
  rw [if_pos rfl]
  exact ⟨rfl, rfl, rfl⟩

/-- Witness for the amended C6 at a concrete disabled-firewall run. -/
theorem claim_C6_witness :
    (check_mac_firewall_status fwOffRunner).status = "FAIL"
    ∧ (check_mac_firewall_status fwOffRunner).findings.map Finding.severity = ["HIGH"] := by
  have h := claim_C6_state0_fail fwOffRunner (by decide) (by decide) (by decide)
  exact ⟨h.1, h.2.2⟩

/-- C7: an `ip route show default` success whose (single-line) stdout
tokenizes as `… via X dev Y …` — with `via`/`dev` not occurring earlier
and arbitrary trailing tokens — resolves to gateway X, interface Y,
not_checked = False. -/
theorem claim_C7_via_dev_parse (runner : List String → CmdResult) (X Y : String)
    (pre tr : List String)
    (hrc : (runner ["ip", "route", "show", "default"]).rc = 0)
    (hlines : Py.splitlines (runner ["ip", "route", "show", "default"]).stdout =
      [(runner ["ip", "route", "show", "default"]).stdout])
    (htok : Py.wsplit (Py.strip (runner ["ip", "route", "show", "default"]).stdout) =
      pre ++ "via" :: X :: "dev" :: Y :: tr)
    (hvia : "via" ∉ pre) (hdev : "dev" ∉ pre) (hXdev : X ≠ "dev") :
    (get_linux_default_route runner).1.gateway = some X
    ∧ (get_linux_default_route runner).1.interface = some Y
    ∧ (get_linux_default_route runner).1.not_checked = false := by
  have hne : Py.strip (runner ["ip", "route", "show", "default"]).stdout ≠ "" := by
    intro h
    rw [h, wsplit_empty] at htok
    exact absurd htok.symm (by simp)
  have hmemX : X ∈ Py.wsplit (Py.strip (runner ["ip", "route", "show", "default"]).stdout) := by
    rw [htok]
    simp
  have hX : X ≠ "" := wsplit_ne_empty _ X hmemX
  have hg : findAfter (pre ++ "via" :: X :: "dev" :: Y :: tr) "via" none = some X :=
    findAfter_spec "via" X pre ("dev" :: Y :: tr) none hvia
  have hrearr : pre ++ "via" :: X :: "dev" :: Y :: tr = (pre ++ ["via", X]) ++ "dev" :: Y :: tr := by
    simp
  have hi : findAfter (pre ++ "via" :: X :: "dev" :: Y :: tr) "dev" none = some Y := by
    rw [hrearr]
    refine findAfter_spec "dev" Y (pre ++ ["via", X]) (tr) none ?_
    intro hmem
    rcases List.mem_append.mp hmem with h | h
    · exact hdev h
    · rcases List.mem_cons.mp h with h | h
      · exact absurd h.symm (by decide)
      · rcases List.mem_cons.mp h with h | h
        · exact hXdev h.symm
        · simp at h
  have hscan : scanIpRouteLines [(runner ["ip", "route", "show", "default"]).stdout] (none, none) =
      (some X, some Y) := by
    simp only [scanIpRouteLines]
    rw [if_neg hne]
    rw [htok, hg, hi]
    rw [if_pos (by simp [Py.truthy, hX])]
  simp only [get_linux_default_route]
  rw [if_pos ⟨hrc, hne⟩]
  rw [hlines, hscan]
  exact ⟨rfl, rfl, rfl⟩

/-- Witness for C7 at a concrete dhcp route line. -/
theorem claim_C7_witness :
    (get_linux_default_route ipGoodRunner).1.gateway = some "192.168.1.1"
    ∧ (get_linux_default_route ipGoodRunner).1.interface = some "eth0"
    ∧ (get_linux_default_route ipGoodRunner).1.not_checked = false :=
  claim_C7_via_dev_parse ipGoodRunner "192.168.1.1" "eth0" ["default"]
    ["proto", "dhcp", "metric", "100"] (by decide) (by decide) (by decide)
    (by decide) (by decide) (by decide)

/-- C2: when the primary `ip route show default` probe fails (non-zero
exit or empty stdout) the resolver invokes `route -n`; and whenever it
declares not_checked = True it has invoked all three probes in order and
its evidence holds one record per attempt. -/
theorem claim_C2_fallback_attempts (runner : List String → CmdResult) :
    (((runner ["ip", "route", "show", "default"]).rc ≠ 0 ∨
        Py.strip (runner ["ip", "route", "show", "default"]).stdout = "") →
      ["route", "-n"] ∈ (get_linux_default_route runner).2)
    ∧ ((get_linux_default_route runner).1.not_checked = true →
      (get_linux_default_route runner).2 =
        [["ip", "route", "show", "default"], ["route", "-n"], ["netstat", "-rn"]]
      ∧ (get_linux_default_route runner).1.evidence =
        RouteEvidence.allAttempts
          (get_evidence ["ip", "route", "show", "default"]
            (runner ["ip", "route", "show", "default"]).rc
            (runner ["ip", "route", "show", "default"]).stdout
            (runner ["ip", "route", "show", "default"]).stderr)
          (get_evidence ["route", "-n"] (runner ["route", "-n"]).rc
            (runner ["route", "-n"]).stdout (runner ["route", "-n"]).stderr)
          (get_evidence ["netstat", "-rn"] (runner ["netstat", "-rn"]).rc
            (runner ["netstat", "-rn"]).stdout (runner ["netstat", "-rn"]).stderr)) := by
  simp only [get_linux_default_route]
  split_ifs with h1 h2 h3
  · constructor
    · intro hfail
      rcases hfail with hf | hf
      · exact absurd h1.1 hf
      · exact absurd hf h1.2
    · intro hnc
      simp at hnc
  · exact ⟨fun _ => by simp, fun hnc => by simp at hnc⟩
  · exact ⟨fun _ => by simp, fun hnc => by simp at hnc⟩
  · exact ⟨fun _ => by simp, fun _ => ⟨rfl, rfl⟩⟩

/-- Witness for C2 at a run where every probe fails. -/
theorem claim_C2_witness :
    ["route", "-n"] ∈ (get_linux_default_route allFailRunner).2
    ∧ (get_linux_default_route allFailRunner).2 =
      [["ip", "route", "show", "default"], ["route", "-n"], ["netstat", "-rn"]] := by
  have h := claim_C2_fallback_attempts allFailRunner
  exact ⟨h.1 (Or.inl (by decide)), (h.2 (by decide)).1⟩

/-- C3 counterexample: `ip route show default` exits 0 with non-empty
output that parses to nothing, yet the resolver returns immediately —
gateway and interface both None with not_checked = False, and the
second strategy is never attempted. -/
theorem claim_C3_counterexample :
    (ipGarbageRunner ["ip", "route", "show", "default"]).rc = 0
    ∧ Py.strip (ipGarbageRunner ["ip", "route", "show", "default"]).stdout ≠ ""
    ∧ (get_linux_default_route ipGarbageRunner).1.gateway = none
    ∧ (get_linux_default_route ipGarbageRunner).1.interface = none
    ∧ (get_linux_default_route ipGarbageRunner).1.not_checked = false
    ∧ (get_linux_default_route ipGarbageRunner).2 = [["ip", "route", "show", "default"]] := by
  refine ⟨by decide, by decide, by decide, by decide, by decide, by decide⟩

/-- C3 (amended): when a probe exits 0 with non-empty output, the
resolver returns from that strategy immediately with whatever the
parser extracted — possibly all-None/empty value fields — tagged
not_checked = False, and does not continue to the next strategy. -/
theorem claim_C3_first_success_returns :
    (∀ (runner : List String → CmdResult),
      (runner ["ip", "route", "show", "default"]).rc = 0 →
      Py.strip (runner ["ip", "route", "show", "default"]).stdout ≠ "" →
      (get_linux_default_route runner).2 = [["ip", "route", "show", "default"]]
      ∧ (get_linux_default_route runner).1.not_checked = false
      ∧ (get_linux_default_route runner).1.gateway =
        (scanIpRouteLines (Py.splitlines (runner ["ip", "route", "show", "default"]).stdout) (none, none)).1
      ∧ (get_linux_default_route runner).1.interface =
        (scanIpRouteLines (Py.splitlines (runner ["ip", "route", "show", "default"]).stdout) (none, none)).2)
    ∧ (∀ (runner : List String → CmdResult) (readA readB : Except PyExn String),
      (runner ["resolvectl", "status"]).rc = 0 →
      Py.strip (runner ["resolvectl", "status"]).stdout ≠ "" →
      get_linux_dns_config runner readA = get_linux_dns_config runner readB
      ∧ (get_linux_dns_config runner readA).source = some "resolvectl"
      ∧ (get_linux_dns_config runner readA).not_checked = false) := by
  constructor
  · intro runner h0 h1
    simp only [get_linux_default_route]
    rw [if_pos ⟨h0, h1⟩]
    exact ⟨rfl, rfl, rfl, rfl⟩
  · intro runner readA readB h0 h1
    simp only [get_linux_dns_config]
    rw [if_pos ⟨h0, h1⟩, if_pos ⟨h0, h1⟩]
    exact ⟨rfl, rfl, rfl⟩

/-- Witness for the amended C3 at concrete successful-but-unparseable
and successful resolvectl runs. -/
theorem claim_C3_witness :
    (get_linux_default_route ipGarbageRunner).2 = [["ip", "route", "show", "default"]]
    ∧ (get_linux_dns_config resolvectlDupRunner (.error ⟨"OSError", "x"⟩)).source = some "resolvectl" := by
  have h1 := claim_C3_first_success_returns.1 ipGarbageRunner (by decide) (by decide)
  have h2 := claim_C3_first_success_returns.2 resolvectlDupRunner
    (.error ⟨"OSError", "x"⟩) (.ok "") (by decide) (by decide)
  exact ⟨h1.1, h2.2.1⟩

/-- C8: each DNS source (resolvectl status, /etc/resolv.conf,
scutil --dns) yields nameserver and search-domain lists equal to the
first-seen-order deduplication of the token stream its parser matches,
and therefore duplicate-free, even when tokens repeat across lines. -/
theorem claim_C8_dedup_first_seen :
    (∀ (runner : List String → CmdResult) (readRC : Except PyExn String),
      (runner ["resolvectl", "status"]).rc = 0 →
      Py.strip (runner ["resolvectl", "status"]).stdout ≠ "" →
      (get_linux_dns_config runner readRC).nameservers =
        firstSeenOrder (resolvectlNsStream (Py.splitlines (runner ["resolvectl", "status"]).stdout))
      ∧ (get_linux_dns_config runner readRC).search_domains =
        firstSeenOrder (resolvectlSdStream (Py.splitlines (runner ["resolvectl", "status"]).stdout))
      ∧ (get_linux_dns_config runner readRC).nameservers.Nodup
      ∧ (get_linux_dns_config runner readRC).search_domains.Nodup)
    ∧ (∀ (runner : List String → CmdResult) (text : String),
      ¬ ((runner ["resolvectl", "status"]).rc = 0 ∧
        Py.strip (runner ["resolvectl", "status"]).stdout ≠ "") →
      (get_linux_dns_config runner (.ok text)).nameservers =
        firstSeenOrder (resolvConfNsStream (Py.splitlines text))
      ∧ (get_linux_dns_config runner (.ok text)).search_domains =
        firstSeenOrder (resolvConfSdStream (Py.splitlines text))
      ∧ (get_linux_dns_config runner (.ok text)).nameservers.Nodup
      ∧ (get_linux_dns_config runner (.ok text)).search_domains.Nodup)
    ∧ (∀ (runner : List String → CmdResult),
      (runner ["scutil", "--dns"]).rc = 0 →
      (get_mac_dns_config runner).nameservers =
        firstSeenOrder (scutilNsStream (Py.splitlines (runner ["scutil", "--dns"]).stdout))
      ∧ (get_mac_dns_config runner).search_domains =
        firstSeenOrder (scutilSdStream (Py.splitlines (runner ["scutil", "--dns"]).stdout))
      ∧ (get_mac_dns_config runner).nameservers.Nodup
      ∧ (get_mac_dns_config runner).search_domains.Nodup) := by
  refine ⟨?_, ?_, ?_⟩
  · intro runner readRC h0 h1
    simp only [get_linux_dns_config]
    rw [if_pos ⟨h0, h1⟩]
    rw [show (scanResolvectl (Py.splitlines (runner ["resolvectl", "status"]).stdout) ([], [])) =
      (dedupAppend [] (resolvectlNsStream (Py.splitlines (runner ["resolvectl", "status"]).stdout)),
       dedupAppend [] (resolvectlSdStream (Py.splitlines (runner ["resolvectl", "status"]).stdout)))
      from scanResolvectl_eq _ [] []]
    rw [dedupAppend_nil_eq, dedupAppend_nil_eq]
    exact ⟨rfl, rfl, firstSeenOrder_nodup _, firstSeenOrder_nodup _⟩
  · intro runner text hfail
    simp only [get_linux_dns_config]
    rw [if_neg hfail]
    rw [show (scanResolvConf (Py.splitlines text) ([], [])) =
      (dedupAppend [] (resolvConfNsStream (Py.splitlines text)),
       dedupAppend [] (resolvConfSdStream (Py.splitlines text)))
      from scanResolvConf_eq _ [] []]
    rw [dedupAppend_nil_eq, dedupAppend_nil_eq]
    exact ⟨rfl, rfl, firstSeenOrder_nodup _, firstSeenOrder_nodup _⟩
  · intro runner h0
    simp only [get_mac_dns_config]
    rw [if_neg (by simp [h0])]
    rw [show (scanScutilDns (Py.splitlines (runner ["scutil", "--dns"]).stdout) ([], [])) =
      (dedupAppend [] (scutilNsStream (Py.splitlines (runner ["scutil", "--dns"]).stdout)),
       dedupAppend [] (scutilSdStream (Py.splitlines (runner ["scutil", "--dns"]).stdout)))
      from scanScutilDns_eq _ [] []]
    rw [dedupAppend_nil_eq, dedupAppend_nil_eq]
    exact ⟨rfl, rfl, firstSeenOrder_nodup _, firstSeenOrder_nodup _⟩

/-- Witness for C8 at concrete runs with repeated tokens in every
source. -/
theorem claim_C8_witness :
    (get_linux_dns_config resolvectlDupRunner (.ok "")).nameservers = ["1.1.1.1", "8.8.8.8", "9.9.9.9"]
    ∧ (get_linux_dns_config resolvectlDupRunner (.ok "")).search_domains = ["corp.example.com", "lab.example.com"]
    ∧ (get_linux_dns_config allFailRunner (.ok resolvConfDupText)).nameservers = ["1.1.1.1", "8.8.8.8"]
    ∧ (get_linux_dns_config allFailRunner (.ok resolvConfDupText)).search_domains = ["a.com", "b.com"]
    ∧ (get_mac_dns_config scutilDupRunner).nameservers = ["1.1.1.1", "8.8.8.8"]
    ∧ (get_mac_dns_config scutilDupRunner).search_domains = ["corp.example.com"] := by
  have h1 := claim_C8_dedup_first_seen.1 resolvectlDupRunner (.ok "") (by decide) (by decide)
  have h2 := claim_C8_dedup_first_seen.2.1 allFailRunner resolvConfDupText (by decide)
  have h3 := claim_C8_dedup_first_seen.2.2 scutilDupRunner (by decide)
  refine ⟨h1.1.trans (by decide), h1.2.1.trans (by decide), h2.1.trans (by decide),
    h2.2.1.trans (by decide), h3.1.trans (by decide), h3.2.1.trans (by decide)⟩

/-- C4: for every resolver (Linux default route, Linux DNS, mac default
route/DNS/proxy, listening ports), not_checked = True implies every
typed value field is None/empty and the error is a non-empty string;
and any non-null typed value implies not_checked = False. -/
theorem claim_C4_not_checked_invariants :
    (∀ (runner : List String → CmdResult),
      ((get_linux_default_route runner).1.not_checked = true →
        (get_linux_default_route runner).1.gateway = none
        ∧ (get_linux_default_route runner).1.interface = none
        ∧ ∃ m, (get_linux_default_route runner).1.error = some m ∧ m ≠ "")
      ∧ (((get_linux_default_route runner).1.gateway ≠ none ∨
          (get_linux_default_route runner).1.interface ≠ none) →
        (get_linux_default_route runner).1.not_checked = false))
    ∧ (∀ (runner : List String → CmdResult) (readRC : Except PyExn String),
      ((get_linux_dns_config runner readRC).not_checked = true →
        (get_linux_dns_config runner readRC).nameservers = []
        ∧ (get_linux_dns_config runner readRC).search_domains = []
        ∧ (get_linux_dns_config runner readRC).source = none
        ∧ ∃ m, (get_linux_dns_config runner readRC).error = some m ∧ m ≠ "")
      ∧ (((get_linux_dns_config runner readRC).nameservers ≠ [] ∨
          (get_linux_dns_config runner readRC).search_domains ≠ [] ∨
          (get_linux_dns_config runner readRC).source ≠ none) →
        (get_linux_dns_config runner readRC).not_checked = false))
    ∧ (∀ (runner : List String → CmdResult),
      ((get_mac_default_route runner).not_checked = true →
        (get_mac_default_route runner).destination = none
        ∧ (get_mac_default_route runner).gateway = none
        ∧ (get_mac_default_route runner).interface = none
        ∧ (get_mac_default_route runner).flags = none
        ∧ ∃ m, (get_mac_default_route runner).error = some m ∧ m ≠ "")
      ∧ (((get_mac_default_route runner).destination ≠ none ∨
          (get_mac_default_route runner).gateway ≠ none ∨
          (get_mac_default_route runner).interface ≠ none ∨
          (get_mac_default_route runner).flags ≠ none) →
        (get_mac_default_route runner).not_checked = false))
    ∧ (∀ (runner : List String → CmdResult),
      ((get_mac_dns_config runner).not_checked = true →
        (get_mac_dns_config runner).nameservers = []
        ∧ (get_mac_dns_config runner).search_domains = []
        ∧ ∃ m, (get_mac_dns_config runner).error = some m ∧ m ≠ "")
      ∧ (((get_mac_dns_config runner).nameservers ≠ [] ∨
          (get_mac_dns_config runner).search_domains ≠ []) →
        (get_mac_dns_config runner).not_checked = false))
    ∧ (∀ (runner : List String → CmdResult),
      ((get_mac_proxy_config runner).not_checked = true →
        (get_mac_proxy_config runner).http = ⟨none, none, none⟩
        ∧ (get_mac_proxy_config runner).https = ⟨none, none, none⟩
        ∧ (get_mac_proxy_config runner).socks = ⟨none, none, none⟩
        ∧ (get_mac_proxy_config runner).pac = ⟨none, none⟩
        ∧ (get_mac_proxy_config runner).exceptions = []
        ∧ ∃ m, (get_mac_proxy_config runner).error = some m ∧ m ≠ "")
      ∧ (((get_mac_proxy_config runner).http ≠ ⟨none, none, none⟩ ∨
          (get_mac_proxy_config runner).https ≠ ⟨none, none, none⟩ ∨
          (get_mac_proxy_config runner).socks ≠ ⟨none, none, none⟩ ∨
          (get_mac_proxy_config runner).pac ≠ ⟨none, none⟩ ∨
          (get_mac_proxy_config runner).exceptions ≠ []) →
        (get_mac_proxy_config runner).not_checked = false))
    ∧ (∀ (conns : Except ConnExn (List Conn)) (procName : Int → Option String),
      ((get_listening_ports conns procName).not_checked = true →
        (get_listening_ports conns procName).tcp = []
        ∧ (get_listening_ports conns procName).udp = []
        ∧ ∃ m, (get_listening_ports conns procName).error = some m ∧ m ≠ "")
      ∧ (((get_listening_ports conns procName).tcp ≠ [] ∨
          (get_listening_ports conns procName).udp ≠ []) →
        (get_listening_ports conns procName).not_checked = false)) := by
  refine ⟨?_, ?_, ?_, ?_, ?_, ?_⟩
  · intro runner
    simp only [get_linux_default_route]
    split_ifs with h1 h2 h3
    · exact ⟨fun h => by simp at h, fun _ => rfl⟩
    · exact ⟨fun h => by simp at h, fun _ => rfl⟩
    · exact ⟨fun h => by simp at h, fun _ => rfl⟩
    · refine ⟨fun _ => ⟨rfl, rfl, _, rfl,
        orS_ne_empty _ (orS_ne_empty _ (orS_ne_empty _ (orS_ne_empty _
          (orS_ne_empty _ (orS_ne_empty _ (by decide))))))⟩, ?_⟩
      intro h
      rcases h with h | h <;> simp at h
  · intro runner readRC
    simp only [get_linux_dns_config]
    split_ifs with h1
    · exact ⟨fun h => by simp at h, fun _ => rfl⟩
    · rcases readRC with e | text
      · refine ⟨fun _ => ⟨rfl, rfl, rfl, _, rfl, sepJoin_ne_empty e.name e.msg⟩, ?_⟩
        intro h
        rcases h with h | h | h <;> simp at h
      · exact ⟨fun h => by simp at h, fun _ => rfl⟩
  · intro runner
    simp only [get_mac_default_route]
    split_ifs with h1
    · refine ⟨fun _ => ⟨rfl, rfl, rfl, rfl, _, rfl,
        orS_ne_empty _ (orS_ne_empty _ (by decide))⟩, ?_⟩
      intro h
      rcases h with h | h | h | h <;> simp at h
    · exact ⟨fun h => by simp at h, fun _ => rfl⟩
  · intro runner
    simp only [get_mac_dns_config]
    split_ifs with h1
    · refine ⟨fun _ => ⟨rfl, rfl, _, rfl,
        orS_ne_empty _ (orS_ne_empty _ (by decide))⟩, ?_⟩
      intro h
      rcases h with h | h <;> simp at h
    · exact ⟨fun h => by simp at h, fun _ => rfl⟩
  · intro runner
    simp only [get_mac_proxy_config]
    split_ifs with h1
    · refine ⟨fun _ => ⟨rfl, rfl, rfl, rfl, rfl, _, rfl,
        orS_ne_empty _ (orS_ne_empty _ (by decide))⟩, ?_⟩
      intro h
      rcases h with h | h | h | h | h <;> simp at h
    · exact ⟨fun h => by simp at h, fun _ => rfl⟩
  · intro conns procName
    rcases conns with e | cs
    · rcases e with ⟨n, m⟩ | ⟨n, m⟩
      · refine ⟨fun _ => ⟨rfl, rfl, _, rfl, sepJoin_ne_empty n m⟩, ?_⟩
        intro h
        rcases h with h | h <;> simp [get_listening_ports] at h
      · refine ⟨fun _ => ⟨rfl, rfl, _, rfl, sepJoin_ne_empty n m⟩, ?_⟩
        intro h
        rcases h with h | h <;> simp [get_listening_ports] at h
    · exact ⟨fun h => by simp [get_listening_ports] at h, fun _ => rfl⟩

/-- Witness for C4 at concrete failing probe outcomes. -/
theorem claim_C4_witness :
    (get_linux_default_route allFailRunner).1.gateway = none
    ∧ (get_linux_dns_config allFailRunner (.error ⟨"PermissionError", "denied"⟩)).nameservers = []
    ∧ (get_listening_ports (.error (.accessDenied "AccessDenied" "(pid=1)")) (fun _ => none)).tcp = [] := by
  have h1 := (claim_C4_not_checked_invariants.1 allFailRunner).1 (by decide)
  have h2 := (claim_C4_not_checked_invariants.2.1 allFailRunner
    (.error ⟨"PermissionError", "denied"⟩)).1 (by decide)
  have h3 := (claim_C4_not_checked_invariants.2.2.2.2.2
    (.error (.accessDenied "AccessDenied" "(pid=1)")) (fun _ => none)).1 (by decide)
  exact ⟨h1.1, h2.1, h3.1⟩

/-- A truthy http value is never overwritten by one `/etc/environment`
line. -/
theorem applyEtcLine_http_preserved (st : ProxyScanState) (line : String)
    (h : Py.truthy st.http_proxy = true) :
    (applyEtcLine st line).http_proxy = st.http_proxy := by
  simp only [applyEtcLine]
  split
  · rfl
  · split
    · rfl
    · split_ifs <;> simp_all

/-- A truthy https value is never overwritten by one `/etc/environment`
line. -/
theorem applyEtcLine_https_preserved (st : ProxyScanState) (line : String)
    (h : Py.truthy st.https_proxy = true) :
    (applyEtcLine st line).https_proxy = st.https_proxy := by
  simp only [applyEtcLine]
  split
  · rfl
  · split
    · rfl
    · split_ifs <;> simp_all

/-- A truthy no_proxy value is never overwritten by one
`/etc/environment` line. -/
theorem applyEtcLine_no_preserved (st : ProxyScanState) (line : String)
    (h : Py.truthy st.no_proxy = true) :
    (applyEtcLine st line).no_proxy = st.no_proxy := by
  simp only [applyEtcLine]
  split
  · rfl
  · split
    · rfl
    · split_ifs <;> simp_all

/-- One `/etc/environment` line only ever appends to the sources list. -/
theorem applyEtcLine_sources_mono (st : ProxyScanState) (line : String) :
    ∀ x ∈ st.sources, x ∈ (applyEtcLine st line).sources := by
  intro x hx
  simp only [applyEtcLine]
  split
  · exact hx
  · split
    · exact hx
    · split_ifs <;> simp_all [List.mem_append]

/-- If one `/etc/environment` line changes any proxy field, it records
the `etc_environment` source. -/
theorem applyEtcLine_changed (st : ProxyScanState) (line : String) :
    ((applyEtcLine st line).http_proxy ≠ st.http_proxy ∨
     (applyEtcLine st line).https_proxy ≠ st.https_proxy ∨
     (applyEtcLine st line).no_proxy ≠ st.no_proxy) →
    "etc_environment" ∈ (applyEtcLine st line).sources := by
  intro hch
  simp only [applyEtcLine] at hch ⊢
  split at hch
  · rcases hch with h | h | h <;> exact absurd rfl h
  · split at hch
    · rcases hch with h | h | h <;> exact absurd rfl h
    · split_ifs at hch ⊢ <;> simp_all [List.mem_append]

/-- A truthy http value survives the whole `/etc/environment` scan. -/
theorem foldl_http_preserved (lines : List String) : ∀ (st : ProxyScanState),
    Py.truthy st.http_proxy = true →
    (lines.foldl applyEtcLine st).http_proxy = st.http_proxy := by
  induction lines with
  | nil => intro st _; rfl
  | cons l ls ih =>
    intro st h
    have hstep := applyEtcLine_http_preserved st l h
    rw [List.foldl_cons, ih (applyEtcLine st l) (by rw [hstep]; exact h), hstep]

/-- A truthy https value survives the whole `/etc/environment` scan. -/
theorem foldl_https_preserved (lines : List String) : ∀ (st : ProxyScanState),
    Py.truthy st.https_proxy = true →
    (lines.foldl applyEtcLine st).https_proxy = st.https_proxy := by
  induction lines with
  | nil => intro st _; rfl
  | cons l ls ih =>
    intro st h
    have hstep := applyEtcLine_https_preserved st l h
    rw [List.foldl_cons, ih (applyEtcLine st l) (by rw [hstep]; exact h), hstep]

/-- A truthy no_proxy value survives the whole `/etc/environment` scan. -/
theorem foldl_no_preserved (lines : List String) : ∀ (st : ProxyScanState),
    Py.truthy st.no_proxy = true →
    (lines.foldl applyEtcLine st).no_proxy = st.no_proxy := by
  induction lines with
  | nil => intro st _; rfl
  | cons l ls ih =>
    intro st h
    have hstep := applyEtcLine_no_preserved st l h
    rw [List.foldl_cons, ih (applyEtcLine st l) (by rw [hstep]; exact h), hstep]

/-- The `/etc/environment` scan only ever appends to the sources list. -/
theorem foldl_sources_mono (lines : List String) : ∀ (st : ProxyScanState) (x : String),
    x ∈ st.sources → x ∈ (lines.foldl applyEtcLine st).sources := by
  induction lines with
  | nil => intro st x hx; exact hx
  | cons l ls ih =>
    intro st x hx
    rw [List.foldl_cons]
    exact ih (applyEtcLine st l) x (applyEtcLine_sources_mono st l x hx)

/-- If the `/etc/environment` scan changes any proxy field, the final
sources list records `etc_environment`. -/
theorem foldl_changed (lines : List String) : ∀ (st : ProxyScanState),
    ((lines.foldl applyEtcLine st).http_proxy ≠ st.http_proxy ∨
     (lines.foldl applyEtcLine st).https_proxy ≠ st.https_proxy ∨
     (lines.foldl applyEtcLine st).no_proxy ≠ st.no_proxy) →
    "etc_environment" ∈ (lines.foldl applyEtcLine st).sources := by
  induction lines with
  | nil =>
    intro st hch
    rcases hch with h | h | h <;> exact absurd rfl h
  | cons l ls ih =>
    intro st hch
    rw [List.foldl_cons] at hch ⊢
    by_cases h1 : (applyEtcLine st l).http_proxy = st.http_proxy
    · by_cases h2 : (applyEtcLine st l).https_proxy = st.https_proxy
      · by_cases h3 : (applyEtcLine st l).no_proxy = st.no_proxy
        · refine ih (applyEtcLine st l) ?_
          rcases hch with h | h | h
          · exact Or.inl (by rw [h1]; exact h)
          · exact Or.inr (Or.inl (by rw [h2]; exact h))
          · exact Or.inr (Or.inr (by rw [h3]; exact h))
        · exact foldl_sources_mono ls _ _
            (applyEtcLine_changed st l (Or.inr (Or.inr h3)))
      · exact foldl_sources_mono ls _ _
          (applyEtcLine_changed st l (Or.inr (Or.inl h2)))
    · exact foldl_sources_mono ls _ _ (applyEtcLine_changed st l (Or.inl h1))

/-- C9: a truthy proxy value found in the environment is returned as-is
and never overwritten from `/etc/environment`; and whenever the file
changed any proxy field, `etc_environment` is recorded in sources. -/
theorem claim_C9_env_wins (env : String → Option String) (readEtc : Except PyExn String) :
    (∀ v, envHttpProxy env = some v → v ≠ "" →
      (get_linux_proxy_config env readEtc).http_proxy = some v)
    ∧ (∀ v, envHttpsProxy env = some v → v ≠ "" →
      (get_linux_proxy_config env readEtc).https_proxy = some v)
    ∧ (∀ v, envNoProxy env = some v → v ≠ "" →
      (get_linux_proxy_config env readEtc).no_proxy = some v)
    ∧ (((get_linux_proxy_config env readEtc).http_proxy ≠ envHttpProxy env ∨
        (get_linux_proxy_config env readEtc).https_proxy ≠ envHttpsProxy env ∨
        (get_linux_proxy_config env readEtc).no_proxy ≠ envNoProxy env) →
      "etc_environment" ∈ (get_linux_proxy_config env readEtc).sources) := by
  refine ⟨?_, ?_, ?_, ?_⟩
  · intro v hv hvne
    simp only [get_linux_proxy_config]
    split
    · rw [foldl_http_preserved _ _ (by simp [Py.truthy, hv, hvne])]
      exact hv
    · exact hv
  · intro v hv hvne
    simp only [get_linux_proxy_config]
    split
    · rw [foldl_https_preserved _ _ (by simp [Py.truthy, hv, hvne])]
      exact hv
    · exact hv
  · intro v hv hvne
    simp only [get_linux_proxy_config]
    split
    · rw [foldl_no_preserved _ _ (by simp [Py.truthy, hv, hvne])]
      exact hv
    · exact hv
  · intro hch
    simp only [get_linux_proxy_config] at hch ⊢
    split at hch
    · rename_i ht
      rw [if_pos ht]
      exact foldl_changed _ _ hch
    · rcases hch with h | h | h <;> exact absurd rfl h

/-- Witness for C9: `HTTP_PROXY` set in the environment survives a file
that also defines it, and a file-supplied `https_proxy` records the
`etc_environment` source. -/
theorem claim_C9_witness :
    (get_linux_proxy_config envHttpOnly (.ok "https_proxy=\"http://q:3128\"")).http_proxy =
      some "http://p:8080"
    ∧ "etc_environment" ∈
      (get_linux_proxy_config envHttpOnly (.ok "https_proxy=\"http://q:3128\"")).sources := by
  have h := claim_C9_env_wins envHttpOnly (.ok "https_proxy=\"http://q:3128\"")
  exact ⟨h.1 "http://p:8080" (by decide) (by decide),
    h.2.2.2 (Or.inr (Or.inl (by decide)))⟩

/-- C10: the Linux proxy resolver always reports a checked, error-free
fact; an unreadable `/etc/environment` behaves exactly like an absent
(empty) one; and with no proxy variable set anywhere the fact has all
three fields None and an empty sources list. -/
theorem claim_C10_proxy_never_not_checked :
    (∀ (env : String → Option String) (readEtc : Except PyExn String),
      (get_linux_proxy_config env readEtc).not_checked = false
      ∧ (get_linux_proxy_config env readEtc).error = none)
    ∧ (∀ (env : String → Option String) (e : PyExn),
      get_linux_proxy_config env (.error e) = get_linux_proxy_config env (.ok ""))
    ∧ (∀ (env : String → Option String) (e : PyExn),
      envHttpProxy env = none → envHttpsProxy env = none → envNoProxy env = none →
      (get_linux_proxy_config env (.error e)).http_proxy = none
      ∧ (get_linux_proxy_config env (.error e)).https_proxy = none
      ∧ (get_linux_proxy_config env (.error e)).no_proxy = none
      ∧ (get_linux_proxy_config env (.error e)).sources = []) := by
  refine ⟨?_, ?_, ?_⟩
  · intro env readEtc
    simp [get_linux_proxy_config]
  · intro env e
    simp [get_linux_proxy_config, Py.truthy]
  · intro env e h1 h2 h3
    simp [get_linux_proxy_config, Py.truthy, h1, h2, h3]

/-- Witness for C10 with an empty environment and an unreadable file. -/
theorem claim_C10_witness :
    (get_linux_proxy_config envEmpty (.error ⟨"PermissionError", "denied"⟩)).http_proxy = none
    ∧ (get_linux_proxy_config envEmpty (.error ⟨"PermissionError", "denied"⟩)).sources = []
    ∧ (get_linux_proxy_config envEmpty (.error ⟨"PermissionError", "denied"⟩)).not_checked = false := by
  have hA := claim_C10_proxy_never_not_checked.1 envEmpty (.error ⟨"PermissionError", "denied"⟩)
  have hC := claim_C10_proxy_never_not_checked.2.2 envEmpty ⟨"PermissionError", "denied"⟩
    (by decide) (by decide) (by decide)
  exact ⟨hC.1, hC.2.2.2, hA.1⟩
